import Mathlib

set_option maxRecDepth 100000
set_option maxHeartbeats 4000000
set_option linter.unusedVariables false

/-!
Verification development for the marketplace-service scraping core
(Google Maps lead generator, `maps-scraper` / service router, and the
mobile SERP tracker `serp-tracker.ts`).

The JavaScript extraction pipeline is regex-driven, so we first build a
small executable interpreter for the fragment of JS `RegExp` the sources
use (character classes, alternation, greedy and lazy quantifiers,
capturing groups, lookahead, anchors, word boundaries, the `i` flag, and
`exec`-loop "global" semantics).  Each source regex is transliterated
into the `RE` syntax below; the extraction functions are then direct
translations of the TypeScript.  JS numbers are modelled as `Q`
(integer counts as `Int`); `null`/`undefined` as `Option`; a JS value
that would be `NaN` from a failed numeric parse is modelled by `none`.
-/

/-- Items of a JS regex character class: single characters, ranges, and
the shorthand escapes `\d`, `\s`, `\w`. -/
inductive CItem where
  | ch (c : Char)
  | rng (lo hi : Char)
  | sd
  | ss
  | sw
deriving Repr, DecidableEq

/-- Syntax of the JS regex fragment used by the scrapers. -/
inductive RE where
  | eps
  | lit (c : Char)
  | cls (neg : Bool) (items : List CItem)
  | anyAll
  | anyDot
  | seq (a b : RE)
  | alt (a b : RE)
  | star (lazy : Bool) (r : RE)
  | grp (i : Nat) (r : RE)
  | look (positive : Bool) (r : RE)
  | bol
  | eol
  | wb
deriving Repr

/-- ASCII lower-casing of one character (JS `toLowerCase` restricted to
the ASCII range actually exercised by the sources). -/
def lowerC (c : Char) : Char :=
  if 65 ≤ c.toNat ∧ c.toNat ≤ 90 then Char.ofNat (c.toNat + 32) else c

/-- ASCII upper-casing of one character. -/
def upperC (c : Char) : Char :=
  if 97 ≤ c.toNat ∧ c.toNat ≤ 122 then Char.ofNat (c.toNat - 32) else c

/-- Character comparison, case-insensitively when `ci` is set. -/
def cEq (ci : Bool) (a b : Char) : Bool :=
  if ci then lowerC a = lowerC b else a = b

/-- JS `\d`. -/
def isDigitJS (c : Char) : Bool := 48 ≤ c.toNat ∧ c.toNat ≤ 57

/-- JS `\s` (the whitespace code points relevant here). -/
def isSpaceJS (c : Char) : Bool :=
  c = ' ' ∨ c = '\t' ∨ c = '\n' ∨ c.toNat = 11 ∨ c.toNat = 12 ∨ c.toNat = 13 ∨
  c.toNat = 160 ∨ c.toNat = 0x2028 ∨ c.toNat = 0x2029 ∨ c.toNat = 0xfeff

/-- JS `\w`. -/
def isWordJS (c : Char) : Bool :=
  isDigitJS c ∨ (65 ≤ c.toNat ∧ c.toNat ≤ 90) ∨ (97 ≤ c.toNat ∧ c.toNat ≤ 122) ∨ c = '_'

/-- Does one class item accept character `c`? -/
def citemMatch (ci : Bool) (it : CItem) (c : Char) : Bool :=
  match it with
  | .ch c' => cEq ci c' c
  | .rng lo hi =>
      (lo ≤ c ∧ c ≤ hi) ∨ (ci ∧ ((lo ≤ lowerC c ∧ lowerC c ≤ hi) ∨ (lo ≤ upperC c ∧ upperC c ≤ hi)))
  | .sd => isDigitJS c
  | .ss => isSpaceJS c
  | .sw => isWordJS c

/-- Does a (possibly negated) class accept character `c`? -/
def clsMatch (ci : Bool) (neg : Bool) (items : List CItem) (c : Char) : Bool :=
  (items.any (fun it => citemMatch ci it c)) ≠ neg

/-- Captures recorded so far: `(group index, start, stop)`, most recent
first (re-capturing a group shadows the older span, as in JS). -/
def Caps := List (Nat × Nat × Nat)

/-- Is the character at position `p` (if any) a word character? -/
def wordAt (s : List Char) (p : Nat) : Bool :=
  match s.get? p with
  | some c => isWordJS c
  | none => false

/-- Backtracking matcher.  `reM ci s fuel re pos caps` returns the list
of all ways `re` can match at `pos`, as `(end position, captures)`
pairs, in JS priority order (greedy prefers longer, lazy prefers
shorter, alternation prefers the left branch).  `fuel` only bounds the
recursion depth; it is chosen large enough everywhere below. -/
def reM (ci : Bool) (s : List Char) : Nat → RE → Nat → Caps → List (Nat × Caps)
  | 0, _, _, _ => []
  | _ + 1, .eps, pos, caps => [(pos, caps)]
  | _ + 1, .lit c, pos, caps =>
      match s.get? pos with
      | some c' => if cEq ci c c' then [(pos + 1, caps)] else []
      | none => []
  | _ + 1, .cls neg items, pos, caps =>
      match s.get? pos with
      | some c' => if clsMatch ci neg items c' then [(pos + 1, caps)] else []
      | none => []
  | _ + 1, .anyAll, pos, caps =>
      match s.get? pos with
      | some _ => [(pos + 1, caps)]
      | none => []
  | _ + 1, .anyDot, pos, caps =>
      match s.get? pos with
      | some c' => if c' = '\n' ∨ c'.toNat = 13 ∨ c'.toNat = 0x2028 ∨ c'.toNat = 0x2029 then [] else [(pos + 1, caps)]
      | none => []
  | fuel + 1, .seq a b, pos, caps =>
      (reM ci s fuel a pos caps).flatMap (fun pc => reM ci s fuel b pc.1 pc.2)
  | fuel + 1, .alt a b, pos, caps =>
      reM ci s fuel a pos caps ++ reM ci s fuel b pos caps
  | fuel + 1, .star lz r, pos, caps =>
      let deeper :=
        (reM ci s fuel r pos caps).flatMap (fun pc =>
          if pc.1 = pos then [] else reM ci s fuel (.star lz r) pc.1 pc.2)
      if lz then (pos, caps) :: deeper else deeper ++ [(pos, caps)]
  | fuel + 1, .grp i r, pos, caps =>
      (reM ci s fuel r pos caps).map (fun pc => (pc.1, (i, pos, pc.1) :: pc.2))
  | fuel + 1, .look positive r, pos, caps =>
      match reM ci s fuel r pos caps with
      | [] => if positive then [] else [(pos, caps)]
      | pc :: _ => if positive then [(pos, pc.2)] else []
  | _ + 1, .bol, pos, caps => if pos = 0 then [(pos, caps)] else []
  | _ + 1, .eol, pos, caps => if pos = s.length then [(pos, caps)] else []
  | _ + 1, .wb, pos, caps =>
      if (wordAt s (pos - 1) && decide (pos ≠ 0)) ≠ wordAt s pos then [(pos, caps)] else []

/-- One regex match: the subject, the span, and the captures. -/
structure MRes where
  src : List Char
  start : Nat
  stop : Nat
  caps : Caps

/-- The characters of `s` from `a` (inclusive) to `b` (exclusive). -/
def sliceStr (s : List Char) (a b : Nat) : String :=
  String.mk ((s.drop a).take (b - a))

/-- The whole matched text (JS `match[0]`). -/
def MRes.m0 (m : MRes) : String := sliceStr m.src m.start m.stop

/-- Capture group `i` (JS `match[i]`), `none` when the group did not
participate. -/
def MRes.grp (m : MRes) (i : Nat) : Option String :=
  match m.caps.find? (fun t => t.1 = i) with
  | some t => some (sliceStr m.src t.2.1 t.2.2)
  | none => none

/-- Capture group `i` defaulted to the empty string (JS `m[i] || ''`). -/
def MRes.grpD (m : MRes) (i : Nat) : String := (m.grp i).getD ""

/-- Depth budget for the matcher; ample for every subject below. -/
def reFuel : Nat := 1000000

/-- Try to match `re` exactly at position `pos`, taking the
highest-priority outcome. -/
def matchAt (ci : Bool) (s : List Char) (re : RE) (pos : Nat) : Option MRes :=
  match reM ci s reFuel re pos [] with
  | [] => none
  | pc :: _ => some ⟨s, pos, pc.1, pc.2⟩

/-- Leftmost match search starting at `pos` (auxiliary, counting down on
remaining positions). -/
def searchAux (ci : Bool) (s : List Char) (re : RE) : Nat → Nat → Option MRes
  | 0, _ => none
  | fuel + 1, pos =>
      match matchAt ci s re pos with
      | some m => some m
      | none => searchAux ci s re fuel (pos + 1)

/-- Leftmost match at or after `pos`. -/
def searchFrom (ci : Bool) (s : List Char) (re : RE) (pos : Nat) : Option MRes :=
  searchAux ci s re (s.length + 1 - pos) pos

/-- A JS regex: the `i` flag plus the pattern. -/
structure JsRegex where
  ci : Bool
  re : RE

/-- JS `regex.test(s)`. -/
def jtest (r : JsRegex) (s : String) : Bool :=
  (searchFrom r.ci s.data r.re 0).isSome

/-- JS `s.match(regex)` (first match). -/
def jmatch (r : JsRegex) (s : String) : Option MRes :=
  searchFrom r.ci s.data r.re 0

/-- Collect successive `exec` results of a global regex (auxiliary). -/
def execAllAux (ci : Bool) (s : List Char) (re : RE) : Nat → Nat → List MRes
  | 0, _ => []
  | fuel + 1, pos =>
      if s.length + 1 ≤ pos then []
      else
        match searchFrom ci s re pos with
        | none => []
        | some m =>
            m :: execAllAux ci s re fuel (if m.stop = m.start then m.stop + 1 else m.stop)

/-- All matches of a global regex, as produced by a JS
`while ((m = re.exec(s)) !== null)` loop. -/
def jexecAll (r : JsRegex) (s : String) : List MRes :=
  execAllAux r.ci s.data r.re (s.data.length + 2) 0

/-- Replace every match of a global regex by a fixed string (auxiliary
reassembly of the non-matched segments). -/
def jreplaceAllAux (s : List Char) (rep : String) : Nat → List MRes → String
  | cursor, [] => String.mk (s.drop cursor)
  | cursor, m :: ms =>
      sliceStr s cursor m.start ++ rep ++ jreplaceAllAux s rep m.stop ms

/-- JS `s.replace(globalRegex, rep)` with a plain replacement string. -/
def jreplaceAll (r : JsRegex) (s : String) (rep : String) : String :=
  jreplaceAllAux s.data rep 0 (jexecAll r s)

/-- Split `s` at every match of a global regex (JS `s.split(regex)`). -/
def jsplitAux (s : List Char) : Nat → List MRes → List String
  | cursor, [] => [String.mk (s.drop cursor)]
  | cursor, m :: ms => sliceStr s cursor m.start :: jsplitAux s m.stop ms

/-- JS `s.split(regex)`. -/
def jsplit (r : JsRegex) (s : String) : List String :=
  jsplitAux s.data 0 (jexecAll r s)

/-! ### Regex construction combinators

These build `RE` values; each source regex below is transliterated with
them, keeping the same structure and ordering as the JS pattern text. -/

namespace RX

/-- Concatenation of a list of regexes. -/
def cat (l : List RE) : RE := l.foldr RE.seq RE.eps

/-- Alternation `a|b|…` (left-preferring, like JS). -/
def orL : List RE → RE
  | [] => RE.eps
  | [r] => r
  | r :: rs => RE.alt r (orL rs)

/-- A literal string. -/
def str (s : String) : RE := cat (s.data.map RE.lit)

/-- Class items for the characters of a string. -/
def cc (s : String) : List CItem := s.data.map CItem.ch

/-- Positive character class over given items. -/
def anyOf (items : List CItem) : RE := RE.cls false items

/-- Negated character class over given items. -/
def noneOf (items : List CItem) : RE := RE.cls true items

/-- `[…]` over plain characters. -/
def chs (s : String) : RE := RE.cls false (cc s)

/-- `[^…]` over plain characters. -/
def nchs (s : String) : RE := RE.cls true (cc s)

/-- `\d`. -/
def d : RE := RE.cls false [.sd]

/-- `\s`. -/
def sp : RE := RE.cls false [.ss]

/-- `\w`. -/
def w : RE := RE.cls false [.sw]

/-- `r*` (greedy). -/
def star (r : RE) : RE := RE.star false r

/-- `r*?` (lazy). -/
def starL (r : RE) : RE := RE.star true r

/-- `r+` (greedy). -/
def plus (r : RE) : RE := RE.seq r (star r)

/-- `r+?` (lazy). -/
def plusL (r : RE) : RE := RE.seq r (starL r)

/-- `r?` (greedy). -/
def opt (r : RE) : RE := RE.alt r RE.eps

/-- `r??` (lazy). -/
def optL (r : RE) : RE := RE.alt RE.eps r

/-- Up to `k` further greedy repetitions of `r` (more preferred). -/
def optChain : Nat → RE → RE
  | 0, _ => RE.eps
  | k + 1, r => RE.alt (RE.seq r (optChain k r)) RE.eps

/-- Up to `k` further lazy repetitions of `r` (fewer preferred). -/
def optChainL : Nat → RE → RE
  | 0, _ => RE.eps
  | k + 1, r => RE.alt RE.eps (RE.seq r (optChainL k r))

/-- `r{m,n}` (greedy). -/
def rep (m n : Nat) (r : RE) : RE := cat (List.replicate m r ++ [optChain (n - m) r])

/-- `r{m,n}?` (lazy). -/
def repL (m n : Nat) (r : RE) : RE := cat (List.replicate m r ++ [optChainL (n - m) r])

/-- `r{m,}` (greedy). -/
def repM (m : Nat) (r : RE) : RE := cat (List.replicate m r ++ [star r])

/-- `[\s\S]` (any character). -/
def anyA : RE := RE.anyAll

/-- `.` (any but line terminators). -/
def dot : RE := RE.anyDot

/-- Capturing group `(…)` with JS group number `i`. -/
def g (i : Nat) (r : RE) : RE := RE.grp i r

end RX

/-! ### JS string, number, and URL helpers -/

/-- Is `pre` a prefix of `l`? -/
def listPref : List Char → List Char → Bool
  | [], _ => true
  | _ :: _, [] => false
  | p :: ps, c :: cs => p = c && listPref ps cs

/-- First index at or after `i` where `sub` occurs in `l` (auxiliary). -/
def idxAux (sub : List Char) : List Char → Nat → Option Nat
  | [], i => if sub = [] then some i else none
  | c :: cs, i => if listPref sub (c :: cs) then some i else idxAux sub cs (i + 1)

/-- JS `s.includes(sub)`. -/
def containsSubstr (s sub : String) : Bool :=
  (idxAux sub.data s.data 0).isSome

/-- JS `s.indexOf(sub)` (−1 when absent). -/
def indexOfJS (s sub : String) : Int :=
  match idxAux sub.data s.data 0 with
  | some i => (i : Int)
  | none => -1

/-- JS `s.startsWith(sub)`. -/
def startsWithJS (s sub : String) : Bool := listPref sub.data s.data

/-- JS `s.endsWith(sub)`. -/
def endsWithJS (s sub : String) : Bool := listPref sub.data.reverse s.data.reverse

/-- JS `s.toLowerCase()` (ASCII range). -/
def toLowerJS (s : String) : String := String.mk (s.data.map lowerC)

/-- JS `s.toUpperCase()` (ASCII range). -/
def toUpperJS (s : String) : String := String.mk (s.data.map upperC)

/-- JS `s.trim()`. -/
def trimJS (s : String) : String :=
  String.mk (((s.data.dropWhile isSpaceJS).reverse.dropWhile isSpaceJS).reverse)

/-- Clamp an integer into `[0, n]`. -/
def clampIdx (n : Nat) (i : Int) : Nat := (max 0 (min i (n : Int))).toNat

/-- JS `s.substring(a, b)` (clamps both ends, swaps them when needed). -/
def jsSubstring (s : String) (a b : Int) : String :=
  let x := clampIdx s.data.length a
  let y := clampIdx s.data.length b
  sliceStr s.data (min x y) (max x y)

/-- JS `s.substring(a)`. -/
def jsSubstringFrom (s : String) (a : Int) : String :=
  jsSubstring s a (s.data.length : Int)

/-- JS `s.substring(0, n)` for a plain bound. -/
def takeJS (n : Nat) (s : String) : String := String.mk (s.data.take n)

/-- Remove every occurrence of one character (JS `s.replace(/c/g, '')`). -/
def removeAllChar (c : Char) (s : String) : String :=
  String.mk (s.data.filter (fun x => x ≠ c))

/-- Replace every occurrence of a literal substring (auxiliary). -/
def replaceLitAux (pat rep : List Char) : Nat → List Char → List Char
  | 0, l => l
  | fuel + 1, l =>
      match l with
      | [] => []
      | c :: cs =>
          if pat ≠ [] && listPref pat (c :: cs) then
            rep ++ replaceLitAux pat rep fuel (List.drop pat.length (c :: cs))
          else c :: replaceLitAux pat rep fuel cs

/-- JS `s.replace(/literal/g, rep)` for a literal pattern. -/
def replaceLitAll (s pat rep : String) : String :=
  String.mk (replaceLitAux pat.data rep.data (s.data.length + 1) s.data)

/-- Numeric value of a list of decimal digits. -/
def digitsVal (l : List Char) : Nat :=
  l.foldl (fun acc c => acc * 10 + (c.toNat - 48)) 0

/-- Fuel-based Euclidean gcd, written so that every concrete application
reduces by iota in the kernel. -/
def gcdF : Nat → Nat → Nat → Nat
  | 0, _, n => n
  | _ + 1, 0, n => n
  | fuel + 1, m + 1, n => gcdF fuel (n % (m + 1)) (m + 1)

/-- Exact rationals used to model JS numbers on the decimal inputs this
code handles.  All values built through the arithmetic below are kept in
lowest terms with a positive denominator, so structural equality is
rational equality. -/
structure Q where
  num : Int
  den : Nat
  deriving Repr, DecidableEq

/-- Normalizing constructor: divides out the gcd.  A `0` denominator is
mapped to `0`; the embedding never produces one. -/
def qNorm (n : Int) (d : Nat) : Q :=
  if d = 0 then ⟨0, 1⟩
  else
    let g := gcdF (n.natAbs + 1) n.natAbs d
    ⟨(if n < 0 then -((n.natAbs / g : Nat) : Int) else ((n.natAbs / g : Nat) : Int)), d / g⟩

instance : OfNat Q n := ⟨⟨(n : Int), 1⟩⟩

instance : NatCast Q := ⟨fun n => ⟨(n : Int), 1⟩⟩

instance : Neg Q := ⟨fun a => ⟨-a.num, a.den⟩⟩

instance : Add Q :=
  ⟨fun a b => qNorm (a.num * (b.den : Int) + b.num * (a.den : Int)) (a.den * b.den)⟩

instance : Mul Q := ⟨fun a b => qNorm (a.num * b.num) (a.den * b.den)⟩

instance : Div Q :=
  ⟨fun a b =>
    if b.num < 0 then qNorm (-(a.num * (b.den : Int))) (a.den * b.num.natAbs)
    else qNorm (a.num * (b.den : Int)) (a.den * b.num.natAbs)⟩

def Q.powNat (a : Q) : Nat → Q
  | 0 => ⟨1, 1⟩
  | k + 1 => a * Q.powNat a k

instance : HPow Q Nat Q := ⟨Q.powNat⟩

instance : LE Q := ⟨fun a b => a.num * (b.den : Int) ≤ b.num * (a.den : Int)⟩

instance : LT Q := ⟨fun a b => a.num * (b.den : Int) < b.num * (a.den : Int)⟩

instance (a b : Q) : Decidable (a ≤ b) :=
  inferInstanceAs (Decidable (a.num * (b.den : Int) ≤ b.num * (a.den : Int)))

instance (a b : Q) : Decidable (a < b) :=
  inferInstanceAs (Decidable (a.num * (b.den : Int) < b.num * (a.den : Int)))

/-- Exponent factor `10^(plus or minus k)` of a `parseFloat` subject, `1`
when malformed (JS stops parsing there). -/
def parseExpo (l : List Char) : Q :=
  let (esgn, l) :=
    match l with
    | '-' :: rest => ((-1 : Int), rest)
    | '+' :: rest => ((1 : Int), rest)
    | _ => ((1 : Int), l)
  let ed := l.takeWhile isDigitJS
  if ed = [] then 1
  else if esgn = -1 then 1 / ((10 : Q) ^ digitsVal ed) else (10 : Q) ^ digitsVal ed

/-- JS `parseFloat` on the decimal fragment actually exercised here:
optional sign, digits, optional fraction, optional exponent; `none`
models `NaN`. -/
def parseFloatJS (s : String) : Option Q :=
  let l := s.data.dropWhile isSpaceJS
  let (sgn, l) :=
    match l with
    | '-' :: rest => ((-1 : Q), rest)
    | '+' :: rest => ((1 : Q), rest)
    | _ => ((1 : Q), l)
  let ip := l.takeWhile isDigitJS
  let l := l.drop ip.length
  let (fp, l) :=
    match l with
    | '.' :: rest => (rest.takeWhile isDigitJS, rest.drop (rest.takeWhile isDigitJS).length)
    | _ => ([], l)
  if ip = [] ∧ fp = [] then none
  else
    let base : Q := (digitsVal ip : Q) + (digitsVal fp : Q) / ((10 : Q) ^ fp.length)
    let expPart : Q :=
      match l with
      | 'e' :: rest => parseExpo rest
      | 'E' :: rest => parseExpo rest
      | _ => 1
    some (sgn * base * expPart)

/-- JS `parseInt` (base 10); `none` models `NaN`. -/
def parseIntJS (s : String) : Option Int :=
  let l := s.data.dropWhile isSpaceJS
  let (sgn, l) :=
    match l with
    | '-' :: rest => ((-1 : Int), rest)
    | '+' :: rest => ((1 : Int), rest)
    | _ => ((1 : Int), l)
  let ds := l.takeWhile isDigitJS
  if ds = [] then none else some (sgn * (digitsVal ds : Int))

/-- Hex digit value. -/
def hexVal (c : Char) : Option Nat :=
  if isDigitJS c then some (c.toNat - 48)
  else if 97 ≤ (lowerC c).toNat ∧ (lowerC c).toNat ≤ 102 then some ((lowerC c).toNat - 87)
  else none

/-- JS `decodeURIComponent`, decoding `%XX` escapes byte-per-byte
(multi-byte UTF-8 sequences are not reassembled; no subject below
contains one, and malformed escapes are passed through). -/
def decodeUriAux : Nat → List Char → List Char
  | 0, l => l
  | fuel + 1, l =>
      match l with
      | [] => []
      | '%' :: h1 :: h2 :: rest =>
          match hexVal h1, hexVal h2 with
          | some a, some b => Char.ofNat (a * 16 + b) :: decodeUriAux fuel rest
          | _, _ => '%' :: decodeUriAux fuel (h1 :: h2 :: rest)
      | c :: rest => c :: decodeUriAux fuel rest

/-- JS `decodeURIComponent` (see the doc comment of `decodeUriAux`). -/
def decodeURIComponentJS (s : String) : String :=
  String.mk (decodeUriAux (s.data.length + 1) s.data)

/-- Hostname and pathname of a parsed URL. -/
structure UrlParts where
  hostname : String
  pathname : String
deriving Repr, DecidableEq

/-- The `new URL(url)` parse, restricted to `scheme://…` URLs as used by
the scrapers: `none` models the constructor throwing.  Hostname is
lower-cased (as the WHATWG parser does for the special schemes), the
empty path normalises to `/`. -/
def urlParse (url : String) : Option UrlParts :=
  let cs := url.data
  let schemeChars := cs.takeWhile (fun c =>
    (65 ≤ c.toNat ∧ c.toNat ≤ 90) ∨ (97 ≤ c.toNat ∧ c.toNat ≤ 122) ∨
    isDigitJS c ∨ c = '+' ∨ c = '-' ∨ c = '.')
  match schemeChars with
  | [] => none
  | c0 :: _ =>
      if ¬ ((65 ≤ c0.toNat ∧ c0.toNat ≤ 90) ∨ (97 ≤ c0.toNat ∧ c0.toNat ≤ 122)) then none
      else
        let rest := cs.drop schemeChars.length
        match rest with
        | ':' :: '/' :: '/' :: tail =>
            let auth := tail.takeWhile (fun c => c ≠ '/' ∧ c ≠ '?' ∧ c ≠ '#')
            let afterAuth := tail.drop auth.length
            let hostPort := (auth.reverse.takeWhile (fun c => c ≠ '@')).reverse
            let host :=
              match hostPort with
              | '[' :: _ => hostPort.takeWhile (fun c => c ≠ ']') ++ [']']
              | _ => hostPort.takeWhile (fun c => c ≠ ':')
            if host = [] then none
            else
              let path := afterAuth.takeWhile (fun c => c ≠ '?' ∧ c ≠ '#')
              some ⟨String.mk (host.map lowerC), if path = [] then "/" else String.mk path⟩
        | _ => none

/-! ### JSON values and `JSON.parse` -/

/-- JSON values (numbers as `Q`). -/
inductive Json where
  | null
  | bool (b : Bool)
  | num (q : Q)
  | str (s : String)
  | arr (xs : List Json)
  | obj (kvs : List (String × Json))

/-- JSON whitespace skipping. -/
def skipWs (l : List Char) : List Char :=
  l.dropWhile (fun c => c = ' ' ∨ c = '\t' ∨ c = '\n' ∨ c.toNat = 13)

/-- Parse the body of a JSON string literal (after the opening quote). -/
def parseJsonStr : Nat → List Char → Option (String × List Char)
  | 0, _ => none
  | fuel + 1, l =>
      match l with
      | [] => none
      | '"' :: rest => some ("", rest)
      | '\\' :: e :: rest =>
          let dec : Option (String × List Char) :=
            match e with
            | '"' => some ("\"", rest)
            | '\\' => some ("\\", rest)
            | '/' => some ("/", rest)
            | 'b' => some (String.mk [Char.ofNat 8], rest)
            | 'f' => some (String.mk [Char.ofNat 12], rest)
            | 'n' => some ("\n", rest)
            | 'r' => some (String.mk [Char.ofNat 13], rest)
            | 't' => some ("\t", rest)
            | 'u' =>
                match rest with
                | a :: b :: c :: d :: r2 =>
                    match hexVal a, hexVal b, hexVal c, hexVal d with
                    | some x, some y, some z, some t =>
                        some (String.mk [Char.ofNat (x * 4096 + y * 256 + z * 16 + t)], r2)
                    | _, _, _, _ => none
                | _ => none
            | _ => none
          match dec with
          | some (pre, r2) => (parseJsonStr fuel r2).map (fun p => (pre ++ p.1, p.2))
          | none => none
      | c :: rest => (parseJsonStr fuel rest).map (fun p => (String.mk [c] ++ p.1, p.2))

/-- Exponent part of a JSON number. -/
def parseJsonExp (base : Q) (l : List Char) : Option (Q × List Char) :=
  let (esgn, l1) :=
    match l with
    | '-' :: rest => ((-1 : Int), rest)
    | '+' :: rest => ((1 : Int), rest)
    | _ => ((1 : Int), l)
  let ed := l1.takeWhile isDigitJS
  if ed = [] then none
  else
    let factor : Q := if esgn = -1 then 1 / ((10 : Q) ^ digitsVal ed) else (10 : Q) ^ digitsVal ed
    some (base * factor, l1.drop ed.length)

/-- Parse a JSON number. -/
def parseJsonNum (l : List Char) : Option (Q × List Char) :=
  let (sgn, l1) :=
    match l with
    | '-' :: rest => ((-1 : Q), rest)
    | _ => ((1 : Q), l)
  let ip := l1.takeWhile isDigitJS
  if ip = [] then none
  else
    let l2 := l1.drop ip.length
    let (fp, l3) :=
      match l2 with
      | '.' :: rest =>
          let f := rest.takeWhile isDigitJS
          (f, rest.drop f.length)
      | _ => ([], l2)
    if l2 ≠ [] ∧ l2.head? = some '.' ∧ fp = [] then none
    else
      let base : Q := (digitsVal ip : Q) + (digitsVal fp : Q) / ((10 : Q) ^ fp.length)
      match l3 with
      | 'e' :: rest => parseJsonExp (sgn * base) rest
      | 'E' :: rest => parseJsonExp (sgn * base) rest
      | _ => some (sgn * base, l3)

/-- What a JSON parse step is asked to produce: one value, the element
list of an array (after `[`), or the member list of an object (after
`{`), both in their non-empty form. -/
inductive PK where
  | val
  | arrElems
  | objElems

/-- Fueled JSON parser (structural recursion so that proofs can
evaluate it). -/
def parseJ : Nat → PK → List Char → Option (Json × List Char)
  | 0, _, _ => none
  | fuel + 1, .val, l =>
      match skipWs l with
      | 'n' :: 'u' :: 'l' :: 'l' :: rest => some (.null, rest)
      | 't' :: 'r' :: 'u' :: 'e' :: rest => some (.bool true, rest)
      | 'f' :: 'a' :: 'l' :: 's' :: 'e' :: rest => some (.bool false, rest)
      | '"' :: rest => (parseJsonStr (rest.length + 1) rest).map (fun p => (.str p.1, p.2))
      | '[' :: rest =>
          (match skipWs rest with
           | ']' :: r2 => some (.arr [], r2)
           | _ => parseJ fuel .arrElems rest)
      | '{' :: rest =>
          (match skipWs rest with
           | '}' :: r2 => some (.obj [], r2)
           | _ => parseJ fuel .objElems rest)
      | rest => (parseJsonNum rest).map (fun p => (.num p.1, p.2))
  | fuel + 1, .arrElems, l =>
      match parseJ fuel .val l with
      | some (v, r) =>
          (match skipWs r with
           | ',' :: r2 =>
               (match parseJ fuel .arrElems r2 with
                | some (.arr xs, r3) => some (.arr (v :: xs), r3)
                | _ => none)
           | ']' :: r2 => some (.arr [v], r2)
           | _ => none)
      | none => none
  | fuel + 1, .objElems, l =>
      match skipWs l with
      | '"' :: rest =>
          match parseJsonStr (rest.length + 1) rest with
          | some (k, r) =>
              (match skipWs r with
               | ':' :: r2 =>
                   (match parseJ fuel .val r2 with
                    | some (v, r3) =>
                        (match skipWs r3 with
                         | ',' :: r4 =>
                             (match parseJ fuel .objElems r4 with
                              | some (.obj kvs, r5) => some (.obj ((k, v) :: kvs), r5)
                              | _ => none)
                         | '}' :: r4 => some (.obj [(k, v)], r4)
                         | _ => none)
                    | none => none)
               | _ => none)
          | none => none
      | _ => none

/-- JS `JSON.parse`; `none` models the thrown `SyntaxError`. -/
def jsonParse (s : String) : Option Json :=
  match parseJ (s.data.length + 2) .val s.data with
  | some (j, rest) => if skipWs rest = [] then some j else none
  | none => none

/-- JS truthiness of a JSON value. -/
def jsTruthy : Json → Bool
  | .null => false
  | .bool b => b
  | .num q => q ≠ 0
  | .str s => s ≠ ""
  | .arr _ => true
  | .obj _ => true

/-- JS truthiness with `undefined` (`none`). -/
def jsTruthyO : Option Json → Bool
  | none => false
  | some j => jsTruthy j

/-- JS property read `item[k]`; `none` models `undefined`. -/
def jsGet : Json → String → Option Json
  | .obj kvs, k => (kvs.reverse.find? (fun kv => kv.1 = k)).map (fun kv => kv.2)
  | _, _ => none

/-- Optional-chained property read. -/
def jsGetO (o : Option Json) (k : String) : Option Json :=
  match o with
  | some j => jsGet j k
  | none => none

/-- Decimal exponent that clears the denominator of a JSON-parsed
rational, when one of at most 30 does. -/
def findDec (q : Q) : Option Nat :=
  (List.range 31).find? (fun k => (q * (10 : Q) ^ k).den = 1)

/-- JS `String(number)` for the finite decimals arising from JSON. -/
def ratDecRepr (q : Q) : String :=
  match findDec q with
  | some 0 => toString q.num
  | some (k + 1) =>
      let n := (q * (10 : Q) ^ (k + 1)).num
      let ds := toString n.natAbs
      let ds := if ds.length ≤ k + 1 then String.mk (List.replicate (k + 2 - ds.length) '0') ++ ds else ds
      (if n < 0 then "-" else "") ++ takeJS (ds.data.length - (k + 1)) ds ++ "." ++
        String.mk (ds.data.drop (ds.data.length - (k + 1)))
  | none => toString q.num ++ "/" ++ toString q.den

/-- JS string coercion of a JSON value, as used where the scraper stores
an `any` into a string-typed field. -/
def jsonDisplay : Json → String
  | .null => "null"
  | .bool b => if b then "true" else "false"
  | .num q => ratDecRepr q
  | .str s => s
  | .arr _ => ""
  | .obj _ => "[object Object]"

/-- JS `v || null` for a string-typed field (empty string is falsy). -/
def jsStrOrNull : Option String → Option String
  | some s => if s = "" then none else some s
  | none => none

/-- JS `jsonValue || null` stored into a string field. -/
def jsOrNullStr (o : Option Json) : Option String :=
  if jsTruthyO o then some (jsonDisplay ((o.getD .null))) else none

/-- JS `===` between a JSON value and a string literal. -/
def jsonEqStr (j : Json) (t : String) : Bool :=
  match j with
  | .str s => s = t
  | _ => false

/-- JS `===` between an optional (possibly `undefined`) JSON value and a
string literal. -/
def jsonEqStrO (o : Option Json) (t : String) : Bool :=
  match o with
  | some j => jsonEqStr j t
  | none => false

/-! ### Google Maps lead generator: data model -/

/-- The ASCII apostrophe (written out to keep source text plain). -/
def aposC : Char := Char.ofNat 39

/-- Geo coordinates of a business.  The components are `Option Q`
because the JSON-LD path stores raw `parseFloat` results, which can be
`NaN` (modelled `none`); every pattern-based constructor below fills
both with `some`. -/
structure Coordinates where
  latitude : Option Q
  longitude : Option Q
deriving Repr, DecidableEq

/-- `BusinessData` of the maps scraper (`string | null` as
`Option String`, numbers as in the module docstring). -/
structure BusinessData where
  name : String
  address : Option String
  phone : Option String
  website : Option String
  email : Option String
  hours : Option (List (String × String))
  rating : Option Q
  reviewCount : Option Int
  categories : List String
  coordinates : Option Coordinates
  placeId : Option String
  priceLevel : Option String
  permanentlyClosed : Bool
deriving Repr, DecidableEq

/-- `SearchResult` of the maps scraper. -/
structure SearchResult where
  businesses : List BusinessData
  totalFound : Nat
  nextPageToken : Option String
  searchQuery : String
  location : String
deriving Repr, DecidableEq

/-! ### `decodeUnicodeEscapes` and `decodeHtmlEntities` -/

/-- First pass of `decodeUnicodeEscapes`: `\uXXXX` escapes. -/
def decodeUniAux : Nat → List Char → List Char
  | 0, l => l
  | fuel + 1, l =>
      match l with
      | [] => []
      | '\\' :: 'u' :: a :: b :: c :: d :: rest =>
          match hexVal a, hexVal b, hexVal c, hexVal d with
          | some x, some y, some z, some t =>
              Char.ofNat (x * 4096 + y * 256 + z * 16 + t) :: decodeUniAux fuel rest
          | _, _, _, _ => '\\' :: decodeUniAux fuel ('u' :: a :: b :: c :: d :: rest)
      | c :: rest => c :: decodeUniAux fuel rest

/-- Second pass of `decodeUnicodeEscapes`: `\xXX` escapes. -/
def decodeHexAux : Nat → List Char → List Char
  | 0, l => l
  | fuel + 1, l =>
      match l with
      | [] => []
      | '\\' :: 'x' :: a :: b :: rest =>
          match hexVal a, hexVal b with
          | some x, some y => Char.ofNat (x * 16 + y) :: decodeHexAux fuel rest
          | _, _ => '\\' :: decodeHexAux fuel ('x' :: a :: b :: rest)
      | c :: rest => c :: decodeHexAux fuel rest

/-- `decodeUnicodeEscapes` of the maps scraper. -/
def decodeUnicodeEscapes (s : String) : String :=
  String.mk (decodeHexAux (s.data.length + 1) (decodeUniAux (s.data.length + 1) s.data))

/-- `decodeHtmlEntities` (shared by the maps scraper and, identically,
by the SERP tracker helper import). -/
def decodeHtmlEntities (text : String) : String :=
  trimJS (replaceLitAll (replaceLitAll (replaceLitAll (replaceLitAll (replaceLitAll (replaceLitAll
    text "&amp;" "&") "&lt;" "<") "&gt;" ">") "&quot;" "\"") "&#39;" (String.mk [aposC])) "&nbsp;" " ")

/-! ### `isValidBusinessName` -/

/-- The quote characters of the `["'"']` classes in the source (the
class text repeats the two ASCII quote characters). -/
def quoteItems : List CItem := [.ch '"', .ch aposC, .ch '"', .ch aposC]

/-- `/^["'"']/`. -/
def startQuoteRe : JsRegex := ⟨false, RX.cat [RE.bol, RX.anyOf quoteItems]⟩

/-- `/["'"']$/`. -/
def endQuoteRe : JsRegex := ⟨false, RX.cat [RX.anyOf quoteItems, RE.eol]⟩

/-- `/["'"']/` (the split pattern). -/
def quoteSplitRe : JsRegex := ⟨false, RX.anyOf quoteItems⟩

/-- `/\s+/`. -/
def wsSplitRe : JsRegex := ⟨false, RX.plus RX.sp⟩

/-- `/[a-zA-Z]/`. -/
def alphaRe : JsRegex := ⟨false, RX.anyOf [.rng 'a' 'z', .rng 'A' 'Z']⟩

/-- The `invalidPatterns` denylist of `isValidBusinessName`, in source
order (all with the `i` flag). -/
def invalidPatterns : List JsRegex :=
  [⟨true, RX.cat [RE.bol, RX.str "result", RX.opt (RE.lit 's'), RX.star RX.sp, RX.str "for"]⟩,
   ⟨true, RX.cat [RE.bol, RX.str "showing"]⟩,
   ⟨true, RX.cat [RE.bol, RX.str "map", RX.star RX.sp, RX.str "data"]⟩,
   ⟨true, RX.cat [RE.bol, RX.str "google"]⟩,
   ⟨true, RX.cat [RE.bol, RX.plus RX.d, RX.star RX.sp, RX.str "result", RX.opt (RE.lit 's')]⟩,
   ⟨true, RX.cat [RE.bol, RX.str "search"]⟩,
   ⟨true, RX.cat [RE.bol, RX.str "filter", RX.opt (RE.lit 's')]⟩,
   ⟨true, RX.cat [RE.bol, RX.str "sort"]⟩,
   ⟨true, RX.cat [RE.bol, RX.str "rating"]⟩,
   ⟨true, RX.cat [RE.bol, RX.str "review", RX.opt (RE.lit 's'), RE.eol]⟩,
   ⟨true, RX.cat [RE.bol, RX.str "open", RX.star RX.sp, RX.str "now"]⟩,
   ⟨true, RX.cat [RE.bol, RX.str "closed"]⟩,
   ⟨true, RX.cat [RE.bol, RX.str "hours"]⟩,
   ⟨true, RX.cat [RE.bol, RX.str "directions"]⟩,
   ⟨true, RX.cat [RE.bol, RX.str "website"]⟩,
   ⟨true, RX.cat [RE.bol, RX.str "call"]⟩,
   ⟨true, RX.cat [RE.bol, RX.str "share"]⟩,
   ⟨true, RX.cat [RE.bol, RX.str "save"]⟩,
   ⟨true, RX.cat [RE.bol, RX.str "more", RX.star RX.sp, RX.str "info"]⟩,
   ⟨true, RX.cat [RE.bol, RX.str "see", RX.star RX.sp, RX.str "more"]⟩,
   ⟨true, RX.cat [RE.bol, RX.str "sponsored"]⟩,
   ⟨true, RX.cat [RE.bol, RX.str "ad", RE.eol]⟩,
   ⟨true, RX.cat [RE.bol, RX.str "menu", RE.eol]⟩,
   ⟨true, RX.cat [RE.bol, RX.str "photo", RX.opt (RE.lit 's'), RE.eol]⟩,
   ⟨true, RX.cat [RE.bol, RX.str "overview", RE.eol]⟩,
   ⟨true, RX.cat [RE.bol, RX.str "about", RE.eol]⟩,
   ⟨true, RX.str "free consult"⟩,
   ⟨true, RX.str "call us"⟩,
   ⟨true, RX.str "call today"⟩,
   ⟨true, RX.str "no insurance"⟩,
   ⟨true, RX.str "affordable"⟩,
   ⟨true, RX.str "highly rated"⟩,
   ⟨true, RX.cat [RX.str "best ", RX.plus RX.dot, RX.str " in"]⟩,
   ⟨true, RX.str "elevate your"⟩,
   ⟨true, RX.str "stylish atmosphere"⟩,
   ⟨true, RX.str "incredible experience"⟩,
   ⟨true, RX.cat [RX.str "authentic ", RX.plus RX.dot, RX.str " food"]⟩,
   ⟨true, RX.str "private event"⟩,
   ⟨true, RX.str "dental provider"⟩,
   ⟨true, RX.str "dental insurance"⟩,
   ⟨true, RX.str "savings plan"⟩,
   ⟨true, RX.str "showed up on time"⟩,
   ⟨true, RX.str "arrived early"⟩,
   ⟨true, RX.str "excellent job"⟩,
   ⟨true, RX.str "felt no pain"⟩,
   ⟨true, RX.str "very tasty"⟩,
   ⟨true, RX.str "great drinks"⟩,
   ⟨true, RX.str "friendly service"⟩,
   ⟨true, RX.str "fixed it"⟩,
   ⟨true, RX.str "found the leak"⟩,
   ⟨true, RX.str "diagnosed"⟩,
   ⟨true, RX.str "plumbing issues"⟩]

/-- `isValidBusinessName` of the maps scraper. -/
def isValidBusinessName (name : String) : Bool :=
  if name = "" ∨ name.data.length < 2 ∨ 80 < name.data.length then false
  else if jtest startQuoteRe name then false
  else if jtest endQuoteRe name ∧ 2 < (jsplit quoteSplitRe name).length then false
  else if containsSubstr name " - " ∧ 50 < name.data.length then false
  else if 8 < (jsplit wsSplitRe name).length then false
  else if invalidPatterns.any (fun p => jtest p name) then false
  else if ¬ jtest alphaRe name then false
  else if name = toUpperJS name ∧ 20 < name.data.length then false
  else true

/-- The `invalidCategories` list of `isValidCategory`, in source order
(the first and fourth have no `i` flag, matching the source). -/
def invalidCategories : List JsRegex :=
  [⟨false, RX.cat [RE.bol, RX.plus RX.d, RE.eol]⟩,
   ⟨true, RX.cat [RE.bol, RX.str "open"]⟩,
   ⟨true, RX.cat [RE.bol, RX.str "closed"]⟩,
   ⟨false, RX.cat [RE.bol, RX.plus (RE.lit '$'), RE.eol]⟩,
   ⟨true, RX.cat [RE.bol, RX.str "review", RX.opt (RE.lit 's'), RE.eol]⟩,
   ⟨true, RX.cat [RE.bol, RX.str "rating"]⟩,
   ⟨true, RX.cat [RE.bol, RX.str "star", RX.opt (RE.lit 's'), RE.eol]⟩,
   ⟨true, RX.cat [RE.bol, RX.str "more"]⟩,
   ⟨true, RX.cat [RE.bol, RX.str "less"]⟩]

/-- `isValidCategory` of the maps scraper. -/
def isValidCategory (c : String) : Bool :=
  if invalidCategories.any (fun p => jtest p c) then false
  else jtest alphaRe c

/-! ### Field-extraction regexes of `createBusinessFromContext` and the
shared helper extractors -/

/-- `-?\d+\.\d+` (the decimal-number fragment). -/
def numFragRe : RE :=
  RX.cat [RX.opt (RE.lit '-'), RX.plus RX.d, RE.lit '.', RX.plus RX.d]

/-- `\d{1,3}(?:,\d{3})*` (comma-grouped integer fragment). -/
def commaGroupsRe : RE :=
  RX.cat [RX.rep 1 3 RX.d, RX.star (RX.cat [RE.lit ',', RX.rep 3 3 RX.d])]

/-- `(?:reviews?|review)`. -/
def reviewsWordRe : RE :=
  RX.orL [RX.cat [RX.str "review", RX.opt (RE.lit 's')], RX.str "review"]

/-- The class `[-.\s]`. -/
def dashDotSp : List CItem := [.ch '-', .ch '.', .ss]

/-- `\d\.\d`. -/
def dDotD : RE := RX.cat [RX.d, RE.lit '.', RX.d]

/-- `\d\.?\d?`. -/
def dOptDotD : RE := RX.cat [RX.d, RX.opt (RE.lit '.'), RX.opt RX.d]

/-- `-?\d{1,3}\.\d{4,}` (high-precision coordinate fragment). -/
def coordFragRe : RE :=
  RX.cat [RX.opt (RE.lit '-'), RX.rep 1 3 RX.d, RE.lit '.', RX.repM 4 RX.d]

/-- The `ratingPatterns` of `createBusinessFromContext`, in source order. -/
def cbcRatingPatterns : List JsRegex :=
  [⟨true, RX.cat [RX.g 1 dDotD, RX.star RX.sp, RX.str "star", RX.opt (RE.lit 's')]⟩,
   ⟨true, RX.cat [RX.str "rating", RX.star (RX.anyOf [.ch ':', .ss]), RX.g 1 dDotD]⟩,
   ⟨true, RX.cat [RX.str "aria-label=\"", RX.g 1 dOptDotD, RX.star RX.sp, RX.str "star", RX.opt (RE.lit 's')]⟩,
   ⟨true, RX.cat [RE.lit '>', RX.g 1 dDotD, RX.str "</span>", RX.star (RX.nchs "<"), RX.orL [RX.str "star", RX.str "rating"]]⟩,
   ⟨true, RX.cat [RX.str "class=\"", RX.star (RX.nchs "\""), RX.orL [RX.str "rating", RX.str "stars"], RX.star (RX.nchs "\""), RX.str "\"", RX.star (RX.nchs ">"), RE.lit '>', RX.g 1 dOptDotD, RE.lit '<']⟩,
   ⟨false, RX.cat [RX.g 1 dDotD, RX.star RX.sp, RE.lit '(', RX.plus RX.d, RE.lit ')']⟩]

/-- The `reviewPatterns` of `createBusinessFromContext`. -/
def cbcReviewPatterns : List JsRegex :=
  [⟨true, RX.cat [RE.lit '(', RX.g 1 commaGroupsRe, RX.star RX.sp, reviewsWordRe, RE.lit ')']⟩,
   ⟨true, RX.cat [RX.g 1 commaGroupsRe, RX.star RX.sp, reviewsWordRe]⟩,
   ⟨true, RX.cat [RX.g 1 (RX.plus RX.d), RX.star RX.sp, RX.str "Google", RX.star RX.sp, RX.str "review", RX.opt (RE.lit 's')]⟩,
   ⟨true, RX.cat [RE.lit '>', RX.g 1 commaGroupsRe, RX.str "</", RX.plus (RX.nchs ">"), RE.lit '>', RX.star (RX.nchs "<"), RX.str "review"]⟩]

/-- The `phonePatterns` of `createBusinessFromContext`. -/
def cbcPhonePatterns : List JsRegex :=
  [⟨false, RX.g 1 (RX.cat [RE.lit '+', RE.lit '1', RX.opt (RX.anyOf dashDotSp), RX.opt (RE.lit '('), RX.rep 3 3 RX.d, RX.opt (RE.lit ')'), RX.opt (RX.anyOf dashDotSp), RX.rep 3 3 RX.d, RX.opt (RX.anyOf dashDotSp), RX.rep 4 4 RX.d])⟩,
   ⟨false, RX.g 1 (RX.cat [RE.lit '(', RX.rep 3 3 RX.d, RE.lit ')', RX.star RX.sp, RX.rep 3 3 RX.d, RX.opt (RX.anyOf [.ch '-', .ch '.']), RX.rep 4 4 RX.d])⟩,
   ⟨true, RX.cat [RX.orL [RX.str "phone", RX.str "tel", RX.str "call"], RX.star (RX.anyOf [.ch ':', .ss]), RX.g 1 (RX.cat [RX.rep 3 3 RX.d, RX.opt (RX.anyOf dashDotSp), RX.rep 3 3 RX.d, RX.opt (RX.anyOf dashDotSp), RX.rep 4 4 RX.d])]⟩,
   ⟨false, RX.cat [RX.str "href=\"tel:", RX.g 1 (RX.plus (RX.nchs "\"")), RE.lit '"']⟩]

/-- The long street-suffix alternation of the first address pattern. -/
def streetSuffixLong : RE :=
  RX.orL [RX.str "St", RX.str "Street", RX.str "Ave", RX.str "Avenue", RX.str "Rd", RX.str "Road",
          RX.str "Blvd", RX.str "Boulevard", RX.str "Dr", RX.str "Drive", RX.str "Ln", RX.str "Lane",
          RX.str "Way", RX.str "Ct", RX.str "Court", RX.str "Pkwy", RX.str "Parkway", RX.str "Pl", RX.str "Place"]

/-- The `addressPatterns` of `createBusinessFromContext`. -/
def cbcAddressPatterns : List JsRegex :=
  [⟨true, RX.g 1 (RX.cat [RX.plus RX.d, RX.plus RX.sp, RX.plus (RX.anyOf [.sw, .ss]), streetSuffixLong, RX.star (RX.nchs ","), RE.lit ',', RX.star RX.sp, RX.plus (RX.anyOf [.sw, .ss]), RE.lit ',', RX.star RX.sp, RX.rep 2 2 (RX.anyOf [.rng 'A' 'Z']), RX.star RX.sp, RX.rep 5 5 RX.d, RX.opt (RX.cat [RE.lit '-', RX.rep 4 4 RX.d])])⟩,
   ⟨true, RX.g 1 (RX.cat [RX.plus RX.d, RX.plus RX.sp, RX.plus (RX.nchs ","), RE.lit ',', RX.star RX.sp, RX.plus (RX.nchs ","), RE.lit ',', RX.star RX.sp, RX.rep 2 2 (RX.anyOf [.rng 'A' 'Z']), RX.star RX.sp, RX.rep 5 5 RX.d])⟩,
   ⟨true, RX.cat [RX.str "class=\"", RX.star (RX.nchs "\""), RX.orL [RX.str "address", RX.str "location"], RX.star (RX.nchs "\""), RX.str "\"", RX.star (RX.nchs ">"), RE.lit '>', RX.g 1 (RX.plus (RX.nchs "<")), RE.lit '<']⟩,
   ⟨true, RX.cat [RX.str "aria-label=\"", RX.star (RX.nchs "\""), RX.str "address", RX.star (RX.nchs "\""), RX.str "\"", RX.star (RX.nchs ">"), RE.lit '>', RX.g 1 (RX.plus (RX.nchs "<")), RE.lit '<']⟩]

/-- The `websitePatterns` of `createBusinessFromContext`. -/
def cbcWebsitePatterns : List JsRegex :=
  [⟨true, RX.cat [RX.str "href=\"", RX.g 1 (RX.cat [RX.str "http", RX.opt (RE.lit 's'), RX.str "://", RE.look false (RX.orL [RX.cat [RX.opt (RX.str "www."), RX.str "google.com"], RX.str "maps.google", RX.str "gstatic"]), RX.plus (RE.cls true [.ss, .ch '"'])]), RX.str "\"", RX.star (RX.nchs ">"), RE.lit '>', RX.star (RX.nchs "<"), RX.orL [RX.str "website", RX.str "visit", RX.str "site", RX.str "homepage"]]⟩,
   ⟨true, RX.cat [RX.orL [RX.str "website", RX.str "site"], RX.star (RX.anyOf [.ch ':', .ss]), RX.str "<a", RX.star (RX.nchs ">"), RX.str "href=\"", RX.g 1 (RX.cat [RX.str "http", RX.opt (RE.lit 's'), RX.str "://", RX.plus (RX.nchs "\"")]), RE.lit '"']⟩,
   ⟨true, RX.cat [RX.str "data-url=\"", RX.g 1 (RX.cat [RX.str "http", RX.opt (RE.lit 's'), RX.str "://", RE.look false (RX.orL [RX.str "google", RX.str "gstatic"]), RX.plus (RX.nchs "\"")]), RE.lit '"']⟩]

/-- `/(\${1,4})\s*(?:·|•|-|<)/` of `createBusinessFromContext`. -/
def cbcPriceRe : JsRegex :=
  ⟨false, RX.cat [RX.g 1 (RX.rep 1 4 (RE.lit '$')), RX.star RX.sp, RX.orL [RE.lit '·', RE.lit '•', RE.lit '-', RE.lit '<']]⟩

/-- `[A-Za-z\s&]`. -/
def azSpAmp : RE := RX.anyOf [.rng 'A' 'Z', .rng 'a' 'z', .ss, .ch '&']

/-- `/·\s*([A-Za-z\s&]+?)\s*(?:·|<|$)/g`. -/
def cbcCatRe1 : JsRegex :=
  ⟨false, RX.cat [RE.lit '·', RX.star RX.sp, RX.g 1 (RX.plusL azSpAmp), RX.star RX.sp, RX.orL [RE.lit '·', RE.lit '<', RE.eol]]⟩

/-- `/class="[^"]*(?:category|type)[^"]*"[^>]*>([^<]+)</gi`. -/
def cbcCatRe2 : JsRegex :=
  ⟨true, RX.cat [RX.str "class=\"", RX.star (RX.nchs "\""), RX.orL [RX.str "category", RX.str "type"], RX.star (RX.nchs "\""), RX.str "\"", RX.star (RX.nchs ">"), RE.lit '>', RX.g 1 (RX.plus (RX.nchs "<")), RE.lit '<']⟩

/-- `/permanently\s*closed/i`. -/
def permanentlyClosedRe : JsRegex :=
  ⟨true, RX.cat [RX.str "permanently", RX.star RX.sp, RX.str "closed"]⟩

/-- `/(-?\d{1,3}\.\d{4,}),\s*(-?\d{1,3}\.\d{4,})/` of
`createBusinessFromContext`. -/
def cbcCoordRe : JsRegex :=
  ⟨false, RX.cat [RX.g 1 coordFragRe, RE.lit ',', RX.star RX.sp, RX.g 2 coordFragRe]⟩

/-- The rating pattern cascade: on a match, parse the capture and accept
only a value in `[1,5]`, otherwise try the next pattern. -/
def ratingLoop (ps : List JsRegex) (context : String) : Option Q :=
  match ps with
  | [] => none
  | p :: rest =>
      match jmatch p context with
      | some m =>
          match parseFloatJS (m.grpD 1) with
          | some r => if 1 ≤ r ∧ r ≤ 5 then some r else ratingLoop rest context
          | none => ratingLoop rest context
      | none => ratingLoop rest context

/-- The review-count cascade: first match wins, commas stripped before
`parseInt`. -/
def reviewLoop (ps : List JsRegex) (context : String) : Option Int :=
  match ps with
  | [] => none
  | p :: rest =>
      match jmatch p context with
      | some m => parseIntJS (removeAllChar ',' (m.grpD 1))
      | none => reviewLoop rest context

/-- The phone cascade: first match wins, trimmed. -/
def phoneLoop (ps : List JsRegex) (context : String) : Option String :=
  match ps with
  | [] => none
  | p :: rest =>
      match jmatch p context with
      | some m => some (trimJS (m.grpD 1))
      | none => phoneLoop rest context

/-- The address cascade of `createBusinessFromContext`: a match is
accepted only within the length band `(10, 200)`. -/
def addressLoop (ps : List JsRegex) (context : String) : Option String :=
  match ps with
  | [] => none
  | p :: rest =>
      match jmatch p context with
      | some m =>
          if 10 < (m.grpD 1).data.length ∧ (m.grpD 1).data.length < 200 then some (trimJS (m.grpD 1))
          else addressLoop rest context
      | none => addressLoop rest context

/-- The website cascade: a match is rejected when it still mentions the
source domains. -/
def websiteLoop (ps : List JsRegex) (context : String) : Option String :=
  match ps with
  | [] => none
  | p :: rest =>
      match jmatch p context with
      | some m =>
          if ¬ containsSubstr (m.grpD 1) "google.com" ∧ ¬ containsSubstr (m.grpD 1) "gstatic.com" then
            some (m.grpD 1)
          else websiteLoop rest context
      | none => websiteLoop rest context

/-- Category collection of `createBusinessFromContext`: length band
`(2, 50)`, no duplicates, `isValidCategory`. -/
def catAccum (cats0 : List String) (ms : List MRes) : List String :=
  ms.foldl (fun cats m =>
    let c := trimJS (m.grpD 1)
    if 2 < c.data.length ∧ c.data.length < 50 ∧ ¬ cats.contains c ∧ isValidCategory c then
      cats ++ [c]
    else cats) cats0

/-- `createBusinessFromContext` of the maps scraper. -/
def createBusinessFromContext (html name : String) (coordinates : Option Coordinates)
    (placeId : Option String) : BusinessData :=
  let business : BusinessData :=
    { name := trimJS name, address := none, phone := none, website := none, email := none,
      hours := none, rating := none, reviewCount := none, categories := [],
      coordinates := coordinates, placeId := jsStrOrNull placeId, priceLevel := none,
      permanentlyClosed := false }
  let nameIndex := indexOfJS html name
  if nameIndex = -1 then business
  else
    let contextStart : Int := max 0 (nameIndex - 500)
    let contextEnd : Int := min (html.data.length : Int) (nameIndex + 2000)
    let context := jsSubstring html contextStart contextEnd
    let coords :=
      match coordinates with
      | some c => some c
      | none =>
          match jmatch cbcCoordRe context with
          | some m =>
              match parseFloatJS (m.grpD 1), parseFloatJS (m.grpD 2) with
              | some lat, some lng =>
                  if -90 ≤ lat ∧ lat ≤ 90 ∧ -180 ≤ lng ∧ lng ≤ 180 then
                    some ⟨some lat, some lng⟩
                  else none
              | _, _ => none
          | none => none
    { business with
      rating := ratingLoop cbcRatingPatterns context,
      reviewCount := reviewLoop cbcReviewPatterns context,
      phone := phoneLoop cbcPhonePatterns context,
      address := addressLoop cbcAddressPatterns context,
      website := websiteLoop cbcWebsitePatterns context,
      priceLevel := (jmatch cbcPriceRe context).map (fun m => m.grpD 1),
      categories := catAccum (catAccum [] (jexecAll cbcCatRe1 context)) (jexecAll cbcCatRe2 context),
      permanentlyClosed := jtest permanentlyClosedRe context,
      coordinates := coords }

/-! ### Shared helper extraction functions of the maps scraper -/

/-- The five patterns of `extractPhoneFromText`. -/
def eptPatterns : List JsRegex :=
  cbcPhonePatterns ++
  [⟨false, RX.g 1 (RX.cat [RX.rep 3 3 RX.d, RX.anyOf dashDotSp, RX.rep 3 3 RX.d, RX.anyOf dashDotSp, RX.rep 4 4 RX.d])⟩]

/-- `extractPhoneFromText`. -/
def extractPhoneFromText (text : String) : Option String :=
  phoneLoop eptPatterns text

/-- The three patterns of `extractAddressFromText`. -/
def eatPatterns : List JsRegex :=
  [⟨true, RX.g 1 (RX.cat [RX.plus RX.d, RX.plus RX.sp, RX.plus (RX.anyOf [.sw, .ss]), streetSuffixLong, RX.star (RX.nchs ",<"), RE.lit ',', RX.star RX.sp, RX.plus (RX.anyOf [.sw, .ss]), RE.lit ',', RX.star RX.sp, RX.rep 2 2 (RX.anyOf [.rng 'A' 'Z']), RX.star RX.sp, RX.rep 5 5 RX.d, RX.opt (RX.cat [RE.lit '-', RX.rep 4 4 RX.d])])⟩,
   ⟨true, RX.g 1 (RX.cat [RX.plus RX.d, RX.plus RX.sp, RX.plus (RX.nchs ",<"), RE.lit ',', RX.star RX.sp, RX.plus (RX.nchs ",<"), RE.lit ',', RX.star RX.sp, RX.rep 2 2 (RX.anyOf [.rng 'A' 'Z']), RX.star RX.sp, RX.rep 5 5 RX.d])⟩,
   ⟨true, RX.cat [RX.orL [RX.str "address", RX.str "location"], RX.star (RX.anyOf [.ch ':', .ss]), RX.g 1 (RX.cat [RX.plus (RX.nchs "<"), RX.orL [RX.str "St", RX.str "Ave", RX.str "Rd", RX.str "Blvd", RX.str "Dr"], RX.star (RX.nchs "<")])]⟩]

/-- Cascade of `extractAddressFromText`: a match is accepted within the
length band `(10, 150)`, entity-decoded and trimmed. -/
def eatLoop (text : String) : List JsRegex → Option String
  | [] => none
  | p :: rest =>
      match jmatch p text with
      | some m =>
          if 10 < (m.grpD 1).data.length ∧ (m.grpD 1).data.length < 150 then
            some (decodeHtmlEntities (trimJS (m.grpD 1)))
          else eatLoop text rest
      | none => eatLoop text rest

/-- `extractAddressFromText`. -/
def extractAddressFromText (text : String) : Option String :=
  eatLoop text eatPatterns

/-- The pattern of `extractWebsiteFromText`. -/
def ewtRe : JsRegex :=
  ⟨true, RX.cat [RX.str "href=\"", RX.g 1 (RX.cat [RX.str "http", RX.opt (RE.lit 's'), RX.str "://", RE.look false (RX.orL [RX.cat [RX.opt (RX.str "www."), RX.str "google.com"], RX.str "maps.google", RX.str "gstatic", RX.str "youtube"]), RX.plus (RE.cls true [.ss, .ch '"'])]), RE.lit '"']⟩

/-- `extractWebsiteFromText`. -/
def extractWebsiteFromText (text : String) : Option String :=
  match jmatch ewtRe text with
  | some m => if ¬ containsSubstr (m.grpD 1) "google.com" then some (m.grpD 1) else none
  | none => none

/-- The pattern of `extractRatingFromText`:
`/(\d\.?\d?)\s*(?:\(|stars?|rating)/i`. -/
def ertRe : JsRegex :=
  ⟨true, RX.cat [RX.g 1 dOptDotD, RX.star RX.sp, RX.orL [RE.lit '(', RX.cat [RX.str "star", RX.opt (RE.lit 's')], RX.str "rating"]]⟩

/-- `extractRatingFromText`. -/
def extractRatingFromText (text : String) : Option Q :=
  match jmatch ertRe text with
  | some m =>
      match parseFloatJS (m.grpD 1) with
      | some r => if 1 ≤ r ∧ r ≤ 5 then some r else none
      | none => none
  | none => none

/-- The four patterns of `extractRatingFromContext`. -/
def ercPatterns : List JsRegex :=
  [⟨false, RX.cat [RX.g 1 dDotD, RX.star RX.sp, RE.lit '(']⟩,
   ⟨true, RX.cat [RX.str "rating", RX.star (RX.anyOf [.ch ':', .ss]), RX.g 1 dDotD]⟩,
   ⟨true, RX.cat [RX.g 1 dDotD, RX.star RX.sp, RX.str "star", RX.opt (RE.lit 's')]⟩,
   ⟨false, RX.cat [RE.lit '>', RX.g 1 dDotD, RX.str "</span>"]⟩]

/-- `extractRatingFromContext`. -/
def extractRatingFromContext (text : String) : Option Q :=
  ratingLoop ercPatterns text

/-- The pattern of `extractReviewCountFromText`. -/
def ervtRe : JsRegex := ⟨false, RX.cat [RE.lit '(', RX.g 1 commaGroupsRe, RE.lit ')']⟩

/-- `extractReviewCountFromText`. -/
def extractReviewCountFromText (text : String) : Option Int :=
  match jmatch ervtRe text with
  | some m => parseIntJS (removeAllChar ',' (m.grpD 1))
  | none => none

/-- The three patterns of `extractReviewCountFromContext`. -/
def ervcPatterns : List JsRegex :=
  [⟨true, RX.cat [RE.lit '(', RX.g 1 commaGroupsRe, RX.star RX.sp, RX.opt reviewsWordRe, RE.lit ')']⟩,
   ⟨true, RX.cat [RX.g 1 commaGroupsRe, RX.star RX.sp, RX.str "review", RX.opt (RE.lit 's')]⟩,
   ⟨true, RX.cat [RX.g 1 (RX.plus RX.d), RX.star RX.sp, RX.str "Google", RX.star RX.sp, RX.str "review", RX.opt (RE.lit 's')]⟩]

/-- `extractReviewCountFromContext`. -/
def extractReviewCountFromContext (text : String) : Option Int :=
  reviewLoop ervcPatterns text

/-- The pattern of `extractPriceLevel`: `/(\${1,4})(?:\s|·|•|-|<)/`. -/
def eplRe : JsRegex :=
  ⟨false, RX.cat [RX.g 1 (RX.rep 1 4 (RE.lit '$')), RX.orL [RX.sp, RE.lit '·', RE.lit '•', RE.lit '-', RE.lit '<']]⟩

/-- `extractPriceLevel`. -/
def extractPriceLevel (text : String) : Option String :=
  (jmatch eplRe text).map (fun m => m.grpD 1)

/-- The pattern of `extractCategoriesFromText`:
`/·\s*([A-Za-z\s&]+?)(?:\s*·|\s*<|$)/g`. -/
def ectRe : JsRegex :=
  ⟨false, RX.cat [RE.lit '·', RX.star RX.sp, RX.g 1 (RX.plusL azSpAmp), RX.orL [RX.cat [RX.star RX.sp, RE.lit '·'], RX.cat [RX.star RX.sp, RE.lit '<'], RE.eol]]⟩

/-- `extractCategoriesFromText`: length band `(2, 40)` and
`isValidCategory`, duplicates kept. -/
def extractCategoriesFromText (text : String) : List String :=
  (jexecAll ectRe text).foldl (fun cats m =>
    let c := trimJS (m.grpD 1)
    if 2 < c.data.length ∧ c.data.length < 40 ∧ isValidCategory c then cats ++ [c] else cats) []

/-- The pattern of `extractCoordsFromContext`:
`/@(-?\d{1,3}\.\d{4,}),(-?\d{1,3}\.\d{4,})/`. -/
def ecoRe : JsRegex :=
  ⟨false, RX.cat [RE.lit '@', RX.g 1 coordFragRe, RE.lit ',', RX.g 2 coordFragRe]⟩

/-- `extractCoordsFromContext`. -/
def extractCoordsFromContext (text : String) : Option Coordinates :=
  match jmatch ecoRe text with
  | some m =>
      match parseFloatJS (m.grpD 1), parseFloatJS (m.grpD 2) with
      | some lat, some lng =>
          if -90 ≤ lat ∧ lat ≤ 90 ∧ -180 ≤ lng ∧ lng ≤ 180 then some ⟨some lat, some lng⟩
          else none
      | _, _ => none
  | none => none

/-! ### JSON-LD business extraction -/

/-- `parseFloat` applied to a JSON-typed value. -/
def parseFloatJson : Json → Option Q
  | .num q => some q
  | .str s => parseFloatJS s
  | _ => none

/-- `parseInt` applied to a JSON-typed value (truncation toward zero via
the decimal string, as JS does). -/
def parseIntJson : Json → Option Int
  | .num q => some (q.num.tdiv (q.den : Int))
  | .str s => parseIntJS s
  | _ => none

/-- `formatJsonLdAddress` of the maps scraper. -/
def formatJsonLdAddress (address : Option Json) : Option String :=
  if ¬ jsTruthyO address then none
  else
    match address.getD .null with
    | .str s => some s
    | a =>
        let parts := [jsGet a "streetAddress", jsGet a "addressLocality", jsGet a "addressRegion",
                      jsGet a "postalCode", jsGet a "addressCountry"]
        let parts := (parts.filter jsTruthyO).map (fun o => jsonDisplay (o.getD .null))
        if parts.length = 0 then none else some (String.intercalate ", " parts)

/-- The `dayNames` table of `parseJsonLdHours`. -/
def dayNamesLd : List String :=
  ["Sunday", "Monday", "Tuesday", "Wednesday", "Thursday", "Friday", "Saturday"]

/-- Replace the first occurrence of a literal substring (JS
`s.replace('literal', rep)`), auxiliary. -/
def replaceLitFirstAux (pat rep : List Char) : Nat → List Char → List Char
  | 0, l => l
  | fuel + 1, l =>
      match l with
      | [] => []
      | c :: cs =>
          if pat ≠ [] && listPref pat (c :: cs) then rep ++ List.drop pat.length (c :: cs)
          else c :: replaceLitFirstAux pat rep fuel cs

/-- JS `s.replace('literal', rep)` (first occurrence only). -/
def replaceLitFirst (s pat rep : String) : String :=
  String.mk (replaceLitFirstAux pat.data rep.data (s.data.length + 1) s.data)

/-- JS object keyed assignment `result[k] = v` on an insertion-ordered
association list. -/
def assocSet (l : List (String × String)) (k v : String) : List (String × String) :=
  if l.any (fun kv => kv.1 = k) then l.map (fun kv => if kv.1 = k then (k, v) else kv)
  else l ++ [(k, v)]

/-- `parseJsonLdHours` of the maps scraper. -/
def parseJsonLdHours (hours : Option Json) : Option (List (String × String)) :=
  if ¬ jsTruthyO hours then none
  else
    let hlist :=
      match hours.getD .null with
      | .arr xs => xs
      | j => [j]
    let result := hlist.foldl (fun (acc : List (String × String)) (spec : Json) =>
      let days :=
        match jsGet spec "dayOfWeek" with
        | some (.arr ds) => ds
        | some dj => [dj]
        | none => [Json.null]
      let range :=
        (if jsTruthyO (jsGet spec "opens") then jsonDisplay ((jsGet spec "opens").getD .null) else "Open") ++
        " - " ++
        (if jsTruthyO (jsGet spec "closes") then jsonDisplay ((jsGet spec "closes").getD .null) else "Close")
      days.foldl (fun acc (day : Json) =>
        let dayName :=
          match day with
          | .str s => replaceLitFirst s "http://schema.org/" ""
          | .num q => if q.den = 1 ∧ 0 ≤ q.num ∧ q.num < 7 then dayNamesLd.getD q.num.toNat "undefined" else "undefined"
          | _ => "undefined"
        assocSet acc dayName range) acc) ([] : List (String × String))
    if result.length = 0 then none else some result

/-- `item['@type']?.includes('Business')` for the string / array shapes
occurring in JSON-LD data. -/
def typeIncludesBusiness : Option Json → Bool
  | some (.str s) => containsSubstr s "Business"
  | some (.arr xs) => xs.any (fun x => jsonEqStr x "Business")
  | _ => false

/-- The business record built by `processItem` in `extractFromJsonLd`;
note that none of the numeric fields is range-checked here. -/
def businessFromJsonLdItem (item : Json) : BusinessData :=
  { name := if jsTruthyO (jsGet item "name") then jsonDisplay ((jsGet item "name").getD .null) else ""
    address := formatJsonLdAddress (jsGet item "address")
    phone := jsOrNullStr (jsGet item "telephone")
    website := jsOrNullStr (jsGet item "url")
    email := jsOrNullStr (jsGet item "email")
    hours := parseJsonLdHours (jsGet item "openingHoursSpecification")
    rating :=
      if jsTruthyO (jsGetO (jsGet item "aggregateRating") "ratingValue") then
        parseFloatJson ((jsGetO (jsGet item "aggregateRating") "ratingValue").getD .null)
      else none
    reviewCount :=
      if jsTruthyO (jsGetO (jsGet item "aggregateRating") "reviewCount") then
        parseIntJson ((jsGetO (jsGet item "aggregateRating") "reviewCount").getD .null)
      else none
    categories := if jsTruthyO (jsGet item "@type") then [jsonDisplay ((jsGet item "@type").getD .null)] else []
    coordinates :=
      if jsTruthyO (jsGet item "geo") then
        some ⟨parseFloatJson ((jsGetO (jsGet item "geo") "latitude").getD .null),
              parseFloatJson ((jsGetO (jsGet item "geo") "longitude").getD .null)⟩
      else none
    placeId := none
    priceLevel := jsOrNullStr (jsGet item "priceRange")
    permanentlyClosed := false }

/-- The recursive `processItem` walk of `extractFromJsonLd` (fuel is the
term size, which bounds the depth). -/
def extractFromJsonLdAux : Nat → Json → List BusinessData → List BusinessData
  | 0, _, acc => acc
  | fuel + 1, item, acc =>
      let ty := jsGet item "@type"
      let isB := jsonEqStrO ty "LocalBusiness" ∨ jsonEqStrO ty "Restaurant" ∨
                 jsonEqStrO ty "Store" ∨ typeIncludesBusiness ty
      let acc :=
        if isB then
          let b := businessFromJsonLdItem item
          if b.name ≠ "" then acc ++ [b] else acc
        else acc
      match item with
      | .arr xs => xs.foldl (fun a x => extractFromJsonLdAux fuel x a) acc
      | .obj kvs => kvs.foldl (fun a kv => extractFromJsonLdAux fuel kv.2 a) acc
      | _ => acc

/-- Depth budget for the `processItem` walk; far above the nesting of
any JSON-LD payload (the walk is fuelled only to stay structurally
recursive). -/
def jsonLdFuel : Nat := 10000

/-- `extractFromJsonLd` of the maps scraper. -/
def extractFromJsonLd (data : Json) : List BusinessData :=
  extractFromJsonLdAux jsonLdFuel data []

/-! ### `parseWizData` and `extractBusinessesFromHtml` -/

/-- `/\["([^"]{3,100})",null,\[null,null,(-?\d+\.\d+),(-?\d+\.\d+)\]/g`. -/
def wizNameRe : JsRegex :=
  ⟨false, RX.cat [RX.str "[\"", RX.g 1 (RX.rep 3 100 (RX.nchs "\"")), RX.str "\",null,[null,null,",
                  RX.g 2 numFragRe, RE.lit ',', RX.g 3 numFragRe, RE.lit ']']⟩

/-- `parseWizData` of the maps scraper. -/
def parseWizData (jsonStr : String) : List BusinessData :=
  (jexecAll wizNameRe jsonStr).foldl (fun acc m =>
    let name := decodeUnicodeEscapes (m.grpD 1)
    let lat := parseFloatJS (m.grpD 2)
    let lng := parseFloatJS (m.grpD 3)
    if isValidBusinessName name then
      acc ++ [{ name := name, address := none, phone := none, website := none, email := none,
                hours := none, rating := none, reviewCount := none, categories := [],
                coordinates := some ⟨lat, lng⟩, placeId := none, priceLevel := none,
                permanentlyClosed := false }]
    else acc) []

/-- `/\[null,null,(-?\d+\.\d+),(-?\d+\.\d+)\][^\]]*?"([^"]{2,100})"/g`
(strategy 1 of `extractBusinessesFromHtml`). -/
def jsDataPattern : JsRegex :=
  ⟨false, RX.cat [RX.str "[null,null,", RX.g 1 numFragRe, RE.lit ',', RX.g 2 numFragRe, RE.lit ']',
                  RX.starL (RX.nchs "]"), RE.lit '"', RX.g 3 (RX.rep 2 100 (RX.nchs "\"")), RE.lit '"']⟩

/-- `/aria-label="([^"]+)"[^>]*(?:data-cid|data-pid|jsaction)="([^"]+)"/g`
(strategy 2). -/
def ariaLabelPattern : JsRegex :=
  ⟨false, RX.cat [RX.str "aria-label=\"", RX.g 1 (RX.plus (RX.nchs "\"")), RX.str "\"",
                  RX.star (RX.nchs ">"), RX.orL [RX.str "data-cid", RX.str "data-pid", RX.str "jsaction"],
                  RX.str "=\"", RX.g 2 (RX.plus (RX.nchs "\"")), RE.lit '"']⟩

/-- `/class="[^"]*(?:fontHeadlineSmall|qBF1Pd|NrDZNb)[^"]*"[^>]*>([^<]+)</g`
(strategy 3). -/
def divPattern : JsRegex :=
  ⟨false, RX.cat [RX.str "class=\"", RX.star (RX.nchs "\""),
                  RX.orL [RX.str "fontHeadlineSmall", RX.str "qBF1Pd", RX.str "NrDZNb"],
                  RX.star (RX.nchs "\""), RX.str "\"", RX.star (RX.nchs ">"), RE.lit '>',
                  RX.g 1 (RX.plus (RX.nchs "<")), RE.lit '<']⟩

/-- `/<script type="application\/ld\+json">([^<]+)<\/script>/g`
(strategy 4). -/
def jsonLdPattern : JsRegex :=
  ⟨false, RX.cat [RX.str "<script type=\"application/ld+json\">", RX.g 1 (RX.plus (RX.nchs "<")),
                  RX.str "</script>"]⟩

/-- `/window\.__WIZ_DATA__\s*=\s*(\[[\s\S]*?\]);/` (strategy 5). -/
def wizDataPattern : JsRegex :=
  ⟨false, RX.cat [RX.str "window.__WIZ_DATA__", RX.star RX.sp, RE.lit '=', RX.star RX.sp,
                  RX.g 1 (RX.cat [RE.lit '[', RX.starL RX.anyA, RE.lit ']']), RE.lit ';']⟩

/-- The per-call accumulation state of `extractBusinessesFromHtml`:
the emitted list and the `seenNames` dedup set (insertion-ordered). -/
structure BizSt where
  businesses : List BusinessData
  seenNames : List String
deriving Repr

/-- Record one business and its dedup key. -/
def bizPush (st : BizSt) (key : String) (b : BusinessData) : BizSt :=
  ⟨st.businesses ++ [b], st.seenNames ++ [key]⟩

/-- `extractBusinessesFromHtml` of the maps scraper (strategies 1–5 over
one shared dedup set). -/
def extractBusinessesFromHtml (html : String) : List BusinessData :=
  let st0 : BizSt := ⟨[], []⟩
  let st1 := (jexecAll jsDataPattern html).foldl (fun st m =>
    let lat := parseFloatJS (m.grpD 1)
    let lng := parseFloatJS (m.grpD 2)
    let name := decodeUnicodeEscapes (m.grpD 3)
    if isValidBusinessName name ∧ ¬ st.seenNames.contains (toLowerJS name) then
      bizPush st (toLowerJS name) (createBusinessFromContext html name (some ⟨lat, lng⟩) none)
    else st) st0
  let st2 := (jexecAll ariaLabelPattern html).foldl (fun st m =>
    let name := decodeUnicodeEscapes (m.grpD 1)
    let id := m.grpD 2
    if isValidBusinessName name ∧ ¬ st.seenNames.contains (toLowerJS name) then
      bizPush st (toLowerJS name) (createBusinessFromContext html name none (some id))
    else st) st1
  let st3 := (jexecAll divPattern html).foldl (fun st m =>
    let name := decodeUnicodeEscapes (trimJS (m.grpD 1))
    if isValidBusinessName name ∧ ¬ st.seenNames.contains (toLowerJS name) then
      bizPush st (toLowerJS name) (createBusinessFromContext html name none none)
    else st) st2
  let st4 := (jexecAll jsonLdPattern html).foldl (fun st m =>
    match jsonParse (m.grpD 1) with
    | some j =>
        (extractFromJsonLd j).foldl (fun (st : BizSt) (biz : BusinessData) =>
          if ¬ st.seenNames.contains (toLowerJS biz.name) then bizPush st (toLowerJS biz.name) biz
          else st) st
    | none => st) st3
  let st5 :=
    match jmatch wizDataPattern html with
    | some m =>
        (parseWizData (m.grpD 1)).foldl (fun (st : BizSt) (biz : BusinessData) =>
          if ¬ st.seenNames.contains (toLowerJS biz.name) then bizPush st (toLowerJS biz.name) biz
          else st) st4
    | none => st4
  st5.businesses

/-! ### `extractFromGoogleLocalSearch`, `extractFromGoogleSearch`, and
`parseBusinessDetails` -/

/-- `/(\d\.?\d?)\s*\((\d+)\)/` of `parseBusinessDetails`. -/
def pbdRatingRe : JsRegex :=
  ⟨false, RX.cat [RX.g 1 dOptDotD, RX.star RX.sp, RE.lit '(', RX.g 2 (RX.plus RX.d), RE.lit ')']⟩

/-- `/(?:·|\|)\s*([^·|<]+(?:St|Ave|Rd|Blvd|Dr|Ln|Way|Ct|Pl|Pkwy)[^·|<]*)/i`. -/
def pbdAddressRe : JsRegex :=
  ⟨true, RX.cat [RX.orL [RE.lit '·', RE.lit '|'], RX.star RX.sp,
                 RX.g 1 (RX.cat [RX.plus (RX.noneOf [.ch '·', .ch '|', .ch '<']),
                                 RX.orL [RX.str "St", RX.str "Ave", RX.str "Rd", RX.str "Blvd", RX.str "Dr",
                                         RX.str "Ln", RX.str "Way", RX.str "Ct", RX.str "Pl", RX.str "Pkwy"],
                                 RX.star (RX.noneOf [.ch '·', .ch '|', .ch '<'])])]⟩

/-- `/^([^·|0-9(]+?)(?:·|\||<|\d)/` of `parseBusinessDetails`. -/
def pbdCategoryRe : JsRegex :=
  ⟨false, RX.cat [RE.bol, RX.g 1 (RX.plusL (RX.noneOf [.ch '·', .ch '|', .rng '0' '9', .ch '('])),
                  RX.orL [RE.lit '·', RE.lit '|', RE.lit '<', RX.d]]⟩

/-- `/closed/i`. -/
def closedWordRe : JsRegex := ⟨true, RX.str "closed"⟩

/-- `/open/i`. -/
def openWordRe : JsRegex := ⟨true, RX.str "open"⟩

/-- `parseBusinessDetails` of the maps scraper. -/
def parseBusinessDetails (name detailsHtml cid : String) : BusinessData :=
  let ratingM := jmatch pbdRatingRe detailsHtml
  let rating := ratingM.bind (fun m => parseFloatJS (m.grpD 1))
  let reviewCount := ratingM.bind (fun m => parseIntJS (m.grpD 2))
  let addressM := jmatch pbdAddressRe detailsHtml
  let categories :=
    match jmatch pbdCategoryRe detailsHtml with
    | some m => if 2 < (trimJS (m.grpD 1)).data.length then [trimJS (m.grpD 1)] else []
    | none => []
  { name,
    address := addressM.map (fun m => trimJS (m.grpD 1)),
    phone := extractPhoneFromText detailsHtml,
    website := none, email := none, hours := none,
    rating := (match rating with | some r => if 1 ≤ r ∧ r ≤ 5 then some r else none | none => none),
    reviewCount, categories, coordinates := none, placeId := some cid,
    priceLevel := extractPriceLevel detailsHtml,
    permanentlyClosed := jtest closedWordRe detailsHtml ∧ ¬ jtest openWordRe detailsHtml }

/-- `parseBusinessFromCardHtml` of the maps scraper. -/
def parseBusinessFromCardHtml (name cardHtml : String) : BusinessData :=
  { name,
    address := extractAddressFromText cardHtml,
    phone := extractPhoneFromText cardHtml,
    website := extractWebsiteFromText cardHtml,
    email := none, hours := none,
    rating := extractRatingFromContext cardHtml,
    reviewCount := extractReviewCountFromContext cardHtml,
    categories := extractCategoriesFromText cardHtml,
    coordinates := none, placeId := none,
    priceLevel := extractPriceLevel cardHtml,
    permanentlyClosed := jtest permanentlyClosedRe cardHtml }

/-- The `cardPattern` of `extractFromGoogleLocalSearch` (flags `gi`). -/
def cardPattern : JsRegex :=
  ⟨true, RX.cat [RX.str "data-cid=\"", RX.g 1 (RX.plus (RX.nchs "\"")), RX.str "\"",
                 RX.star (RX.nchs ">"), RE.lit '>', RX.starL RX.anyA,
                 RX.str "<div", RX.star (RX.nchs ">"), RX.str "class=\"", RX.star (RX.nchs "\""),
                 RX.str "dbg0pd", RX.star (RX.nchs "\""), RX.str "\"", RX.star (RX.nchs ">"), RE.lit '>',
                 RX.g 2 (RX.plus (RX.nchs "<")), RE.lit '<', RX.starL RX.anyA,
                 RX.opt (RX.cat [RX.str "<span", RX.star (RX.nchs ">"), RX.str "class=\"",
                                 RX.star (RX.nchs "\""), RX.str "rllt__details", RX.star (RX.nchs "\""),
                                 RX.str "\"", RX.star (RX.nchs ">"), RE.lit '>',
                                 RX.g 3 (RX.starL RX.anyA), RX.str "</span>"])]⟩

/-- The `altPattern` of `extractFromGoogleLocalSearch` (flags `gi`). -/
def lsAltPattern : JsRegex :=
  ⟨true, RX.cat [RX.str "<span", RX.star (RX.nchs ">"), RX.str "class=\"", RX.star (RX.nchs "\""),
                 RX.str "OSrXXb", RX.star (RX.nchs "\""), RX.str "\"", RX.star (RX.nchs ">"), RE.lit '>',
                 RX.g 1 (RX.plus (RX.nchs "<")), RX.str "</span>", RX.starL RX.anyA,
                 RX.str "<span", RX.star (RX.nchs ">"), RE.lit '>',
                 RX.g 2 (RX.cat [RX.star (RX.nchs "<"), dDotD, RX.star (RX.nchs "<")]),
                 RX.str "</span>", RX.starL RX.anyA,
                 RX.opt (RX.cat [RX.str "<span", RX.star (RX.nchs ">"), RE.lit '>',
                                 RX.g 3 (RX.plus (RX.nchs "<")), RX.str "</span>"])]⟩

/-- The `vkpPattern` of `extractFromGoogleLocalSearch` (flags `gi`). -/
def vkpPattern : JsRegex :=
  ⟨true, RX.cat [RX.str "<div", RX.star (RX.nchs ">"), RX.str "class=\"", RX.star (RX.nchs "\""),
                 RX.str "VkpGBb", RX.star (RX.nchs "\""), RX.str "\"", RX.star (RX.nchs ">"), RE.lit '>',
                 RX.g 1 (RX.starL RX.anyA), RX.str "</div>", RX.star RX.sp, RX.str "</div>",
                 RX.star RX.sp, RX.str "</div>"]⟩

/-- `/<span[^>]*>([^<]{3,50})<\/span>/` (card-name probe of the
`VkpGBb` branch). -/
def vkpNameRe : JsRegex :=
  ⟨false, RX.cat [RX.str "<span", RX.star (RX.nchs ">"), RE.lit '>',
                  RX.g 1 (RX.rep 3 50 (RX.nchs "<")), RX.str "</span>"]⟩

/-- `extractFromGoogleLocalSearch` of the maps scraper. -/
def extractFromGoogleLocalSearch (html : String) : List BusinessData :=
  let st0 : BizSt := ⟨[], []⟩
  let st1 := (jexecAll cardPattern html).foldl (fun st m =>
    let cid := m.grpD 1
    let name := decodeHtmlEntities (trimJS (m.grpD 2))
    let detailsHtml := m.grpD 3
    if ¬ isValidBusinessName name ∨ st.seenNames.contains (toLowerJS name) then st
    else bizPush st (toLowerJS name) (parseBusinessDetails name detailsHtml cid)) st0
  let st2 := (jexecAll lsAltPattern html).foldl (fun st m =>
    let name := decodeHtmlEntities (trimJS (m.grpD 1))
    let ratingText := m.grpD 2
    let addressText := m.grpD 3
    if ¬ isValidBusinessName name ∨ st.seenNames.contains (toLowerJS name) then st
    else
      bizPush st (toLowerJS name)
        { name,
          address := jsStrOrNull (some (trimJS addressText)),
          phone := extractPhoneFromText (jsSubstring html (indexOfJS html name) (indexOfJS html name + 1000)),
          website := none, email := none, hours := none,
          rating := extractRatingFromText ratingText,
          reviewCount := extractReviewCountFromText ratingText,
          categories := [], coordinates := none, placeId := none,
          priceLevel := extractPriceLevel ratingText,
          permanentlyClosed := false }) st1
  let st3 := (jexecAll vkpPattern html).foldl (fun st m =>
    let cardHtml := m.grpD 1
    match jmatch vkpNameRe cardHtml with
    | none => st
    | some nm =>
        let name := decodeHtmlEntities (trimJS (nm.grpD 1))
        if ¬ isValidBusinessName name ∨ st.seenNames.contains (toLowerJS name) then st
        else bizPush st (toLowerJS name) (parseBusinessFromCardHtml name cardHtml)) st2
  st3.businesses

/-- The `localPackPattern` of `extractFromGoogleSearch` (flags `gi`). -/
def localPackPattern : JsRegex :=
  ⟨true, RX.cat [RX.str "<div", RX.star (RX.nchs ">"), RX.str "class=\"", RX.star (RX.nchs "\""),
                 RX.orL [RX.str "VkpGBb", RX.str "rllt__link", RX.str "cXedhc"],
                 RX.star (RX.nchs "\""), RX.str "\"", RX.star (RX.nchs ">"), RE.lit '>',
                 RX.g 1 (RX.starL RX.anyA), RX.str "</div>"]⟩

/-- Name probe of the local-pack branch (flag `i`). -/
def gsNameRe : JsRegex :=
  ⟨true, RX.cat [RE.lit '<', RX.orL [RX.str "span", RX.str "div"], RX.star (RX.nchs ">"),
                 RX.str "class=\"", RX.star (RX.nchs "\""),
                 RX.orL [RX.str "OSrXXb", RX.str "dbg0pd", RX.str "SPZz6b"],
                 RX.star (RX.nchs "\""), RX.str "\"", RX.star (RX.nchs ">"), RE.lit '>',
                 RX.g 1 (RX.plus (RX.nchs "<")), RE.lit '<']⟩

/-- The `kgPattern` of `extractFromGoogleSearch` (flags `gi`). -/
def kgPattern : JsRegex :=
  ⟨true, RX.cat [RX.str "<div", RX.star (RX.nchs ">"), RX.str "data-attrid=\"title\"",
                 RX.star (RX.nchs ">"), RE.lit '>', RX.g 1 (RX.plus (RX.nchs "<")), RE.lit '<',
                 RX.starL RX.anyA,
                 RX.opt (RX.cat [RX.str "data-attrid=\"", RX.star (RX.nchs "\""), RX.str "address",
                                 RX.star (RX.nchs "\""), RX.str "\"", RX.star (RX.nchs ">"), RE.lit '>',
                                 RX.g 2 (RX.plus (RX.nchs "<")), RE.lit '<'])]⟩

/-- `extractFromGoogleSearch` of the maps scraper. -/
def extractFromGoogleSearch (html : String) (query : String) : List BusinessData :=
  let st0 : BizSt := ⟨[], []⟩
  let st1 := (jexecAll localPackPattern html).foldl (fun st m =>
    let cardHtml := m.grpD 1
    match jmatch gsNameRe cardHtml with
    | none => st
    | some nm =>
        let name := decodeHtmlEntities (trimJS (nm.grpD 1))
        if ¬ isValidBusinessName name ∨ st.seenNames.contains (toLowerJS name) then st
        else bizPush st (toLowerJS name) (parseBusinessFromCardHtml name cardHtml)) st0
  let st2 := (jexecAll kgPattern html).foldl (fun st m =>
    let name := decodeHtmlEntities (trimJS (m.grpD 1))
    let address :=
      match m.grp 2 with
      | some a => if a = "" then none else some (decodeHtmlEntities (trimJS a))
      | none => none
    if ¬ isValidBusinessName name ∨ st.seenNames.contains (toLowerJS name) then st
    else
      let context := jsSubstring html (max 0 (indexOfJS html name - 200)) (indexOfJS html name + 1500)
      bizPush st (toLowerJS name)
        { name, address,
          phone := extractPhoneFromText context,
          website := extractWebsiteFromText context,
          email := none, hours := none,
          rating := extractRatingFromContext context,
          reviewCount := extractReviewCountFromContext context,
          categories := [],
          coordinates := extractCoordsFromContext context,
          placeId := none, priceLevel := none,
          permanentlyClosed := jtest permanentlyClosedRe context }) st1
  st2.businesses
  
/-- JS falsy-guarded field update of `enrichBusinessData` for string
fields (`if (!business.f) business.f = v`). -/
def orElseStrField (cur v : Option String) : Option String :=
  match cur with
  | some s => if s = "" then v else some s
  | none => v

/-- Falsy-guarded update for the rating field. -/
def orElseRatField (cur v : Option Q) : Option Q :=
  match cur with
  | some r => if r = 0 then v else some r
  | none => v

/-- Falsy-guarded update for the review-count field. -/
def orElseIntField (cur v : Option Int) : Option Int :=
  match cur with
  | some n => if n = 0 then v else some n
  | none => v

/-- `enrichBusinessData` of the maps scraper (returning the updated
record instead of mutating it). -/
def enrichBusinessData (business : BusinessData) (html : String) : BusinessData :=
  let nameIndex := indexOfJS html business.name
  if nameIndex = -1 then business
  else
    let context := jsSubstring html (max 0 (nameIndex - 200)) (nameIndex + 2000)
    { business with
      address := orElseStrField business.address (extractAddressFromText context),
      phone := orElseStrField business.phone (extractPhoneFromText context),
      website := orElseStrField business.website (extractWebsiteFromText context),
      rating := orElseRatField business.rating (extractRatingFromContext context),
      reviewCount := orElseIntField business.reviewCount (extractReviewCountFromContext context),
      coordinates := (match business.coordinates with
                      | some c => some c
                      | none => extractCoordsFromContext context),
      priceLevel := orElseStrField business.priceLevel (extractPriceLevel context) }

/-! ### The `scrapeGoogleMaps` strategy chain

`scrapeGoogleMaps` interleaves fetching and pure extraction; its pure
core is modelled by passing the fetched bodies in: `some body` stands
for a `response.ok` fetch of that strategy, `none` for a failed or
non-ok one (whose `catch`/`ok`-guard skips the strategy). -/

/-- The per-strategy merge loop: stop at `limit`, skip seen dedup keys,
otherwise enrich (strategy 2 passes the page enricher, the others the
identity) and append. -/
def mergeBiz (limit : Nat) (enrich : BusinessData → BusinessData) (st : BizSt)
    (cands : List BusinessData) : BizSt :=
  cands.foldl (fun st biz =>
    if limit ≤ st.businesses.length then st
    else if st.seenNames.contains (toLowerJS biz.name) then st
    else ⟨st.businesses ++ [enrich biz], st.seenNames ++ [toLowerJS biz.name]⟩) st

/-- State after strategy 1 (Google Local Search). -/
def mapsStage1 (localHtml : Option String) (limit : Nat) : BizSt :=
  match localHtml with
  | some h => mergeBiz limit id ⟨[], []⟩ (extractFromGoogleLocalSearch h)
  | none => ⟨[], []⟩

/-- State after strategy 2 (Google Maps search page), entered only when
the target is not yet met. -/
def mapsStage2 (localHtml mapsHtml : Option String) (limit : Nat) : BizSt :=
  if (mapsStage1 localHtml limit).businesses.length < limit then
    match mapsHtml with
    | some h =>
        mergeBiz limit (fun b => enrichBusinessData b h) (mapsStage1 localHtml limit)
          (extractBusinessesFromHtml h)
    | none => mapsStage1 localHtml limit
  else mapsStage1 localHtml limit

/-- State after strategy 3 (regular Google Search). -/
def mapsStage3 (localHtml mapsHtml searchHtml : Option String) (query : String) (limit : Nat) : BizSt :=
  if (mapsStage2 localHtml mapsHtml limit).businesses.length < limit then
    match searchHtml with
    | some h =>
        mergeBiz limit id (mapsStage2 localHtml mapsHtml limit) (extractFromGoogleSearch h query)
    | none => mapsStage2 localHtml mapsHtml limit
  else mapsStage2 localHtml mapsHtml limit

/-- The pure core of `scrapeGoogleMaps`: the three strategy documents
in, the `SearchResult` out. -/
def scrapeGoogleMapsCore (localHtml mapsHtml searchHtml : Option String)
    (query location : String) (limit : Nat) (startIndex : Int) : SearchResult :=
  { businesses := (mapsStage3 localHtml mapsHtml searchHtml query limit).businesses.take limit,
    totalFound := (mapsStage3 localHtml mapsHtml searchHtml query limit).businesses.length,
    nextPageToken :=
      if limit ≤ (mapsStage3 localHtml mapsHtml searchHtml query limit).businesses.length then
        some (toString (startIndex + (limit : Int)))
      else none,
    searchQuery := query,
    location := location }

/-! ### Mobile SERP tracker (`serp-tracker.ts`): URL handling -/

/-- The hostname denylist of `isRealExternalUrl` (checked with
`endsWith`, in source order). -/
def googleDenylist : List String :=
  ["google.com", "google.co.uk", "google.ca", "google.de", "gstatic.com", "googleapis.com",
   "googleusercontent.com", "googlesyndication.com", "googleadservices.com", "googletagmanager.com",
   "google-analytics.com", "youtube.com", "doubleclick.net", "goo.gl"]

/-- `isRealExternalUrl` of the SERP tracker. -/
def isRealExternalUrl (url : String) : Bool :=
  if url = "" then false
  else if ¬ startsWithJS url "http" then false
  else
    match urlParse url with
    | none => false
    | some parts =>
        let hostname := toLowerJS parts.hostname
        if googleDenylist.any (fun dom => endsWithJS hostname dom) ∨ hostname = "localhost" then false
        else if containsSubstr url "/httpservice/" then false
        else true

/-- `/[?&](?:q|url)=([^&]+)/` of `resolveGoogleUrl`. -/
def urlQRe : JsRegex :=
  ⟨false, RX.cat [RX.anyOf [.ch '?', .ch '&'], RX.orL [RE.lit 'q', RX.str "url"], RE.lit '=',
                  RX.g 1 (RX.plus (RX.nchs "&"))]⟩

/-- `resolveGoogleUrl` of the SERP tracker. -/
def resolveGoogleUrl (url : String) : Option String :=
  if containsSubstr url "/url?" then
    match jmatch urlQRe url with
    | some m =>
        let decoded := decodeURIComponentJS (m.grpD 1)
        if isRealExternalUrl decoded then some decoded else none
    | none => none
  else if isRealExternalUrl url then some url else none

/-- `/<[^>]+>/g` (tag stripper). -/
def tagRe : JsRegex := ⟨false, RX.cat [RE.lit '<', RX.plus (RX.nchs ">"), RE.lit '>']⟩

/-- `stripTags` of the SERP tracker. -/
def stripTags (html : String) : String := trimJS (jreplaceAll tagRe html "")

/-- `extractDisplayUrl` of the SERP tracker. -/
def extractDisplayUrl (url : String) : String :=
  match urlParse url with
  | some parsed =>
      let path := if parsed.pathname = "/" then "" else parsed.pathname
      takeJS 80 (parsed.hostname ++ path)
  | none => takeJS 80 url

/-! ### SERP record types -/

/-- A sitelink of an organic result. -/
structure Sitelink where
  title : String
  url : String
deriving Repr, DecidableEq

/-- An organic search result. -/
structure OrganicResult where
  position : Nat
  title : String
  url : String
  displayUrl : String
  snippet : String
  sitelinks : List Sitelink
  date : Option String
  cached : Bool
deriving Repr, DecidableEq

/-- A paid (ad) result. -/
structure AdResult where
  position : Nat
  title : String
  url : String
  displayUrl : String
  description : String
  isTop : Bool
deriving Repr, DecidableEq

/-- A People-Also-Ask entry. -/
structure PeopleAlsoAsk where
  question : String
  snippet : Option String
  url : Option String
deriving Repr, DecidableEq

/-- A featured snippet (the `type` tag is one of `paragraph`, `list`,
`table`, `unknown`). -/
structure FeaturedSnippet where
  text : String
  url : String
  title : String
  type : String
deriving Repr, DecidableEq

/-- One cited source of an AI overview. -/
structure AiSource where
  title : String
  url : String
deriving Repr, DecidableEq

/-- An AI-overview block. -/
structure AiOverview where
  text : String
  sources : List AiSource
deriving Repr, DecidableEq

/-- A map-pack entry. -/
structure MapPackResult where
  name : String
  address : Option String
  rating : Option Q
  reviewCount : Option Int
  category : Option String
  phone : Option String
deriving Repr, DecidableEq

/-- A knowledge panel. -/
structure KnowledgePanel where
  title : String
  type : Option String
  description : Option String
  url : Option String
  attributes : List (String × String)
deriving Repr, DecidableEq

/-- The full SERP response. -/
structure SerpResponse where
  query : String
  country : String
  language : String
  location : Option String
  totalResults : Option String
  organic : List OrganicResult
  ads : List AdResult
  peopleAlsoAsk : List PeopleAlsoAsk
  featuredSnippet : Option FeaturedSnippet
  aiOverview : Option AiOverview
  mapPack : List MapPackResult
  knowledgePanel : Option KnowledgePanel
  relatedSearches : List String
deriving Repr, DecidableEq

/-! ### Organic-result extraction -/

/-- `/(\b(?:Jan|…|Dec)\s+\d{1,2},?\s+\d{4}\b)/i` of `extractDate`. -/
def dateRe : JsRegex :=
  ⟨true, RX.g 1 (RX.cat [RE.wb,
    RX.orL [RX.str "Jan", RX.str "Feb", RX.str "Mar", RX.str "Apr", RX.str "May", RX.str "Jun",
            RX.str "Jul", RX.str "Aug", RX.str "Sep", RX.str "Oct", RX.str "Nov", RX.str "Dec"],
    RX.plus RX.sp, RX.rep 1 2 RX.d, RX.opt (RE.lit ','), RX.plus RX.sp, RX.rep 4 4 RX.d, RE.wb])⟩

/-- `extractDate` of the SERP tracker. -/
def extractDate (text : String) : Option String :=
  (jmatch dateRe text).map (fun m => m.grpD 1)

/-- The sitelink pattern (flags `gi`). -/
def sitelinkPattern : JsRegex :=
  ⟨true, RX.cat [RX.str "<a", RX.star (RX.nchs ">"), RX.str "class=\"", RX.star (RX.nchs "\""),
                 RX.orL [RX.str "fl", RX.str "sitelink"], RX.star (RX.nchs "\""), RX.str "\"",
                 RX.star (RX.nchs ">"), RX.str "href=\"", RX.g 1 (RX.plus (RX.nchs "\"")), RX.str "\"",
                 RX.star (RX.nchs ">"), RE.lit '>', RX.g 2 (RX.plus (RX.nchs "<")), RX.str "</a>"]⟩

/-- `extractSitelinks` of the SERP tracker. -/
def extractSitelinks (blockHtml : String) : List Sitelink :=
  (jexecAll sitelinkPattern blockHtml).foldl (fun acc m =>
    let url := m.grpD 1
    let title := trimJS (stripTags (m.grpD 2))
    if title ≠ "" ∧ ¬ containsSubstr url "google.com" then
      acc ++ [⟨decodeHtmlEntities title, url⟩]
    else acc) []

/-- `/cache:/i`. -/
def cacheRe : JsRegex := ⟨true, RX.str "cache:"⟩

/-- The link pattern of `parseOrganicBlock`. -/
def pobLinkRe : JsRegex :=
  ⟨true, RX.cat [RX.str "<a", RX.star (RX.nchs ">"), RX.str "href=\"",
                 RX.g 1 (RX.cat [RX.orL [RX.str "/url?q=", RX.cat [RX.str "http", RX.opt (RE.lit 's'), RX.str "://"]],
                                 RX.plus (RX.nchs "\"")]),
                 RX.str "\"", RX.star (RX.nchs ">"), RE.lit '>']⟩

/-- The `titlePatterns` of `parseOrganicBlock`, in source order. -/
def pobTitlePatterns : List JsRegex :=
  [⟨true, RX.cat [RX.str "<h3", RX.star (RX.nchs ">"), RE.lit '>', RX.g 1 (RX.plus (RX.nchs "<")), RX.str "</h3>"]⟩,
   ⟨true, RX.cat [RX.str "<div", RX.star (RX.nchs ">"), RX.str "role=\"heading\"", RX.star (RX.nchs ">"), RE.lit '>', RX.g 1 (RX.plus (RX.nchs "<")), RX.str "</div>"]⟩,
   ⟨true, RX.cat [RX.str "<h3", RX.star (RX.nchs ">"), RE.lit '>', RX.g 1 (RX.starL RX.anyA), RX.str "</h3>"]⟩,
   ⟨true, RX.cat [RX.str "<a", RX.star (RX.nchs ">"), RX.str "href=\"", RX.star (RX.nchs "\""), RX.str "\"", RX.star (RX.nchs ">"), RE.lit '>', RX.str "<div", RX.star (RX.nchs ">"), RE.lit '>', RX.g 1 (RX.plus (RX.nchs "<")), RX.str "</div>"]⟩]

/-- The `snippetPatterns` of `parseOrganicBlock`. -/
def pobSnippetPatterns : List JsRegex :=
  [⟨true, RX.cat [RX.str "<div", RX.star (RX.nchs ">"), RX.str "class=\"", RX.star (RX.nchs "\""), RX.orL [RX.str "VwiC3b", RX.str "IsZvec", RX.str "s3v9rd"], RX.star (RX.nchs "\""), RX.str "\"", RX.star (RX.nchs ">"), RE.lit '>', RX.g 1 (RX.starL RX.anyA), RX.str "</div>"]⟩,
   ⟨true, RX.cat [RX.str "<span", RX.star (RX.nchs ">"), RX.str "class=\"", RX.star (RX.nchs "\""), RX.orL [RX.str "aCOpRe", RX.str "st"], RX.star (RX.nchs "\""), RX.str "\"", RX.star (RX.nchs ">"), RE.lit '>', RX.g 1 (RX.starL RX.anyA), RX.str "</span>"]⟩,
   ⟨true, RX.cat [RX.str "<div", RX.star (RX.nchs ">"), RX.str "data-sncf=\"", RX.star (RX.nchs "\""), RX.str "\"", RX.star (RX.nchs ">"), RE.lit '>', RX.g 1 (RX.starL RX.anyA), RX.str "</div>"]⟩]

/-- Title cascade of `parseOrganicBlock`: the variable keeps the last
short candidate when no pattern yields a long-enough one. -/
def pobTitleLoop (blockHtml : String) : List JsRegex → String → String
  | [], title => title
  | p :: rest, title =>
      match jmatch p blockHtml with
      | some m =>
          let t := trimJS (stripTags (m.grpD 1))
          if 2 < t.data.length then t else pobTitleLoop blockHtml rest t
      | none => pobTitleLoop blockHtml rest title

/-- Snippet cascade of `parseOrganicBlock` (same retained-variable
shape, with the length-10 bar). -/
def pobSnippetLoop (blockHtml : String) : List JsRegex → String → String
  | [], snippet => snippet
  | p :: rest, snippet =>
      match jmatch p blockHtml with
      | some m =>
          let sn := trimJS (decodeHtmlEntities (stripTags (m.grpD 1)))
          if 10 < sn.data.length then sn else pobSnippetLoop blockHtml rest sn
      | none => pobSnippetLoop blockHtml rest snippet

/-- `parseOrganicBlock` of the SERP tracker. -/
def parseOrganicBlock (blockHtml : String) : Option OrganicResult :=
  match jmatch pobLinkRe blockHtml with
  | none => none
  | some lm =>
      let url := (resolveGoogleUrl (lm.grpD 1)).getD ""
      if url = "" then none
      else
        let title := pobTitleLoop blockHtml pobTitlePatterns ""
        if title = "" then none
        else
          let snippet := pobSnippetLoop blockHtml pobSnippetPatterns ""
          some { position := 0, title := decodeHtmlEntities title, url := url,
                 displayUrl := extractDisplayUrl url, snippet := snippet,
                 sitelinks := extractSitelinks blockHtml,
                 date := extractDate snippet,
                 cached := jtest cacheRe blockHtml }

/-- Accumulation state of `extractOrganicResults`: results plus the
`seenUrls` set. -/
structure OrgSt where
  results : List OrganicResult
  seen : List String
deriving Repr

/-- `/^(?:cached|similar|translate|more results|sign in|help)$/i`. -/
def navTitleRe : JsRegex :=
  ⟨true, RX.cat [RE.bol, RX.orL [RX.str "cached", RX.str "similar", RX.str "translate",
                                 RX.str "more results", RX.str "sign in", RX.str "help"], RE.eol]⟩

/-- The `addResult` closure of `extractOrganicResults`. -/
def addResult (st : OrgSt) (url title snippet : String) (blockHtml : Option String) : OrgSt :=
  match resolveGoogleUrl url with
  | none => st
  | some resolved =>
      if st.seen.contains resolved then st
      else if title = "" ∨ title.data.length < 3 then st
      else if jtest navTitleRe title then st
      else
        ⟨st.results ++ [{ position := st.results.length + 1, title := decodeHtmlEntities title,
                          url := resolved, displayUrl := extractDisplayUrl resolved,
                          snippet := decodeHtmlEntities snippet,
                          sitelinks := (match blockHtml with | some bh => extractSitelinks bh | none => []),
                          date := extractDate snippet,
                          cached := (match blockHtml with | some bh => jtest cacheRe bh | none => false) }],
          st.seen ++ [resolved]⟩

/-- The `(?:MjjYud|Gx5Zad|g\b)` class-name alternation of strategy 1. -/
def orgClassAlt : RE :=
  RX.orL [RX.str "MjjYud", RX.str "Gx5Zad", RX.cat [RE.lit 'g', RE.wb]]

/-- The `resultBlockPattern` of strategy 1 (flags `gi`). -/
def resultBlockPattern : JsRegex :=
  ⟨true, RX.cat [RX.str "<div", RX.star (RX.nchs ">"), RX.str "class=\"", RX.star (RX.nchs "\""),
                 orgClassAlt, RX.star (RX.nchs "\""), RX.str "\"", RX.star (RX.nchs ">"), RE.lit '>',
                 RX.g 1 (RX.starL RX.anyA), RX.str "</div>", RX.star RX.sp,
                 RE.look true (RX.orL [RX.cat [RX.str "<div", RX.star (RX.nchs ">"), RX.str "class=\"",
                                               RX.star (RX.nchs "\""), orgClassAlt],
                                       RX.str "<footer", RE.eol])]⟩

/-- The `basicPattern` of strategy 2 (flags `gi`). -/
def basicPattern : JsRegex :=
  ⟨true, RX.cat [RX.str "<h3", RX.star (RX.nchs ">"), RX.str "class=\"", RX.star (RX.nchs "\""),
                 RE.lit 'r', RX.star (RX.nchs "\""), RX.str "\"", RX.star (RX.nchs ">"), RE.lit '>',
                 RX.star RX.sp, RX.str "<a", RX.star (RX.nchs ">"), RX.str "href=\"",
                 RX.g 1 (RX.plus (RX.nchs "\"")), RX.str "\"", RX.star (RX.nchs ">"), RE.lit '>',
                 RX.g 2 (RX.starL RX.anyA), RX.str "</a>", RX.star RX.sp, RX.str "</h3>",
                 RX.starL RX.anyA,
                 RX.opt (RX.cat [RX.str "<span", RX.star (RX.nchs ">"), RX.str "class=\"",
                                 RX.star (RX.nchs "\""), RX.orL [RX.str "st", RX.str "aCOpRe"],
                                 RX.star (RX.nchs "\""), RX.str "\"", RX.star (RX.nchs ">"), RE.lit '>',
                                 RX.g 3 (RX.starL RX.anyA), RX.str "</span>"])]⟩

/-- The `gBlockPattern` of strategy 3 (flags `gi`). -/
def gBlockPattern : JsRegex :=
  ⟨true, RX.cat [RX.str "<div class=\"g\">", RX.g 1 (RX.starL RX.anyA), RX.str "</div>",
                 RX.star RX.sp, RE.look true (RX.orL [RX.str "<div class=\"g\">", RE.eol])]⟩

/-- The inner link probe of strategy 3 (flag `i`). -/
def gLinkRe : JsRegex :=
  ⟨true, RX.cat [RX.str "<a", RX.star (RX.nchs ">"), RX.str "href=\"", RX.g 1 (RX.plus (RX.nchs "\"")),
                 RX.str "\"", RX.star (RX.nchs ">"), RE.lit '>', RX.g 2 (RX.starL RX.anyA), RX.str "</a>"]⟩

/-- The first inner snippet probe of strategy 3 (`span class~st`). -/
def gSnipRe1 : JsRegex :=
  ⟨true, RX.cat [RX.str "<span", RX.star (RX.nchs ">"), RX.str "class=\"", RX.star (RX.nchs "\""),
                 RX.str "st", RX.star (RX.nchs "\""), RX.str "\"", RX.star (RX.nchs ">"), RE.lit '>',
                 RX.g 1 (RX.starL RX.anyA), RX.str "</span>"]⟩

/-- The second inner snippet probe of strategy 3 (`div class~s`). -/
def gSnipRe2 : JsRegex :=
  ⟨true, RX.cat [RX.str "<div", RX.star (RX.nchs ">"), RX.str "class=\"", RX.star (RX.nchs "\""),
                 RE.lit 's', RX.star (RX.nchs "\""), RX.str "\"", RX.star (RX.nchs ">"), RE.lit '>',
                 RX.g 1 (RX.starL RX.anyA), RX.str "</div>"]⟩

/-- The `urlPattern` of strategy 4 (flags `gi`). -/
def orgUrlPattern : JsRegex :=
  ⟨true, RX.cat [RX.str "<a", RX.star (RX.nchs ">"), RX.str "href=\"",
                 RX.g 1 (RX.cat [RX.str "/url?q=", RX.plus (RX.nchs "\"")]), RX.str "\"",
                 RX.star (RX.nchs ">"), RE.lit '>', RX.g 2 (RX.starL RX.anyA), RX.str "</a>"]⟩

/-- The look-ahead snippet probe of strategy 4 (flag `i`). -/
def afterLinkSnipRe : JsRegex :=
  ⟨true, RX.cat [RE.lit '<', RX.orL [RX.str "span", RX.str "div", RX.str "td"], RX.star (RX.nchs ">"),
                 RE.lit '>', RX.g 1 (RX.repL 20 300 RX.anyA), RX.str "</",
                 RX.orL [RX.str "span", RX.str "div", RX.str "td"], RE.lit '>']⟩

/-- The `directPattern` of strategy 5 (flags `gi`). -/
def directPattern : JsRegex :=
  ⟨true, RX.cat [RX.str "<a", RX.star (RX.nchs ">"), RX.str "href=\"",
                 RX.g 1 (RX.cat [RX.str "http", RX.opt (RE.lit 's'), RX.str "://", RX.plus (RX.nchs "\"")]),
                 RX.str "\"", RX.star (RX.nchs ">"), RE.lit '>', RX.g 2 (RX.starL RX.anyA), RX.str "</a>"]⟩

/-- `/^(?:here|click|next|prev|more|sign|log|help|learn|about)/i` of
strategy 5. -/
def navStartRe : JsRegex :=
  ⟨true, RX.cat [RE.bol, RX.orL [RX.str "here", RX.str "click", RX.str "next", RX.str "prev",
                                 RX.str "more", RX.str "sign", RX.str "log", RX.str "help",
                                 RX.str "learn", RX.str "about"]]⟩

/-- One step of strategy 1. -/
def orgStep1 (st : OrgSt) (m : MRes) : OrgSt :=
  match parseOrganicBlock (m.grpD 1) with
  | some p => addResult st p.url p.title p.snippet (some (m.grpD 1))
  | none => st

/-- One step of strategy 2. -/
def orgStep2 (st : OrgSt) (m : MRes) : OrgSt :=
  addResult st (m.grpD 1) (stripTags (m.grpD 2)) (stripTags (m.grpD 3)) none

/-- The `snippetMatch` probe of strategy 3 (`?.[1] || \'\'` on the
`st`-span match, falling back to the `s`-div match). -/
def gSnippetOf (inner : String) : String :=
  match (match jmatch gSnipRe1 inner with
         | some x => some x
         | none => jmatch gSnipRe2 inner) with
  | some x => x.grpD 1
  | none => ""

/-- One step of strategy 3. -/
def orgStep3 (st : OrgSt) (m : MRes) : OrgSt :=
  match jmatch gLinkRe (m.grpD 1) with
  | none => st
  | some lm =>
      addResult st (lm.grpD 1) (stripTags (lm.grpD 2)) (stripTags (gSnippetOf (m.grpD 1)))
        (some (m.grpD 1))

/-- One step of strategy 4. -/
def orgStep4 (html : String) (st : OrgSt) (m : MRes) : OrgSt :=
  let title := trimJS (stripTags (m.grpD 2))
  let afterLink := jsSubstring html ((m.start : Int) + (m.m0.data.length : Int))
                     ((m.start : Int) + (m.m0.data.length : Int) + 1000)
  let snippet :=
    match jmatch afterLinkSnipRe afterLink with
    | some sm => trimJS (stripTags (sm.grpD 1))
    | none => ""
  addResult st (m.grpD 1) title snippet none

/-- One step of strategy 5. -/
def orgStep5 (st : OrgSt) (m : MRes) : OrgSt :=
  let title := trimJS (stripTags (m.grpD 2))
  if title.data.length < 5 ∨ 200 < title.data.length then st
  else if jtest navStartRe title then st
  else addResult st (m.grpD 1) title "" none

/-- State after strategy 1. -/
def orgStage1 (html : String) : OrgSt :=
  (jexecAll resultBlockPattern html).foldl orgStep1 ⟨[], []⟩

/-- State after strategy 2 (entered only when nothing was found). -/
def orgStage2 (html : String) : OrgSt :=
  if (orgStage1 html).results.length = 0 then
    (jexecAll basicPattern html).foldl orgStep2 (orgStage1 html)
  else orgStage1 html

/-- State after strategy 3. -/
def orgStage3 (html : String) : OrgSt :=
  if (orgStage2 html).results.length = 0 then
    (jexecAll gBlockPattern html).foldl orgStep3 (orgStage2 html)
  else orgStage2 html

/-- State after strategy 4. -/
def orgStage4 (html : String) : OrgSt :=
  if (orgStage3 html).results.length = 0 then
    (jexecAll orgUrlPattern html).foldl (orgStep4 html) (orgStage3 html)
  else orgStage3 html

/-- State after strategy 5. -/
def orgStage5 (html : String) : OrgSt :=
  if (orgStage4 html).results.length = 0 then
    (jexecAll directPattern html).foldl orgStep5 (orgStage4 html)
  else orgStage4 html

/-- `extractOrganicResults` of the SERP tracker. -/
def extractOrganicResults (html : String) : List OrganicResult :=
  (orgStage5 html).results

/-! ### Ads extraction -/

/-- The `adPattern` of `parseAdSection` (flags `gi`). -/
def adPattern : JsRegex :=
  ⟨true, RX.cat [RX.str "<a", RX.star (RX.nchs ">"),
                 RX.orL [RX.str "data-rw",
                         RX.cat [RX.str "class=\"", RX.star (RX.nchs "\""),
                                 RX.orL [RX.str "sVXRqc", RX.str "Krnil"],
                                 RX.star (RX.nchs "\""), RX.str "\""]],
                 RX.star (RX.nchs ">"), RX.str "href=\"", RX.g 1 (RX.plus (RX.nchs "\"")), RX.str "\"",
                 RX.star (RX.nchs ">"), RE.lit '>', RX.g 2 (RX.starL RX.anyA), RX.str "</a>"]⟩

/-- `/(?:adurl|dest)=([^&]+)/` (ad click-target unwrapping). -/
def aclkRe : JsRegex :=
  ⟨false, RX.cat [RX.orL [RX.str "adurl", RX.str "dest"], RE.lit '=', RX.g 1 (RX.plus (RX.nchs "&"))]⟩

/-- `/<div[^>]*>([\s\S]*?)<\/div>/` (ad description probe, no flags). -/
def descDivRe : JsRegex :=
  ⟨false, RX.cat [RX.str "<div", RX.star (RX.nchs ">"), RE.lit '>', RX.g 1 (RX.starL RX.anyA), RX.str "</div>"]⟩

/-- `parseAdSection` of the SERP tracker. -/
def parseAdSection (sectionHtml : String) (isTop : Bool) : List AdResult :=
  (jexecAll adPattern sectionHtml).foldl (fun ads m =>
    let url0 := m.grpD 1
    let content := m.grpD 2
    let urlOpt :=
      if startsWithJS url0 "/aclk" ∨ containsSubstr url0 "googleadservices" then
        match jmatch aclkRe url0 with
        | some rm => some (decodeURIComponentJS (rm.grpD 1))
        | none => none
      else some url0
    match urlOpt with
    | none => ads
    | some url =>
        if ¬ isRealExternalUrl url then ads
        else
          let title := trimJS (stripTags content)
          if title = "" then ads
          else
            let adIndex := indexOfJS sectionHtml m.m0
            let afterAd := jsSubstring sectionHtml (adIndex + (m.m0.data.length : Int))
                             (adIndex + (m.m0.data.length : Int) + 500)
            let description :=
              match jmatch descDivRe afterAd with
              | some dm => decodeHtmlEntities (stripTags (dm.grpD 1))
              | none => ""
            ads ++ [{ position := 0, title := decodeHtmlEntities title, url := url,
                      displayUrl := extractDisplayUrl url, description := description,
                      isTop := isTop }]) []

/-- The `topAdsPattern` (flags `gi`). -/
def topAdsPattern : JsRegex :=
  ⟨true, RX.cat [RX.str "<div", RX.star (RX.nchs ">"),
                 RX.orL [RX.str "id=\"tads\"",
                         RX.cat [RX.str "class=\"", RX.star (RX.nchs "\""),
                                 RX.orL [RX.str "uEierd", RX.str "mnr-c"],
                                 RX.star (RX.nchs "\""), RX.str "\""]],
                 RX.star (RX.nchs ">"), RE.lit '>', RX.g 1 (RX.starL RX.anyA), RX.str "</div>",
                 RX.star RX.sp,
                 RE.look true (RX.cat [RX.str "<div", RX.star (RX.nchs ">"),
                   RX.orL [RX.cat [RX.str "id=\"", RX.orL [RX.str "res", RX.str "search", RX.str "center_col"], RX.str "\""],
                           RX.cat [RX.str "class=\"", RX.star (RX.nchs "\""),
                                   RX.orL [RX.str "MjjYud", RX.str "hlcw0c"],
                                   RX.star (RX.nchs "\""), RX.str "\""]]])]⟩

/-- The `bottomAdsPattern` (flags `gi`). -/
def bottomAdsPattern : JsRegex :=
  ⟨true, RX.cat [RX.str "<div", RX.star (RX.nchs ">"), RX.str "id=\"bottomads\"",
                 RX.star (RX.nchs ">"), RE.lit '>', RX.g 1 (RX.starL RX.anyA), RX.str "</div>",
                 RX.star RX.sp, RE.look true (RX.orL [RX.str "<footer", RE.eol])]⟩

/-- The fallback `sponsoredPattern` (flags `gi`). -/
def sponsoredPattern : JsRegex :=
  ⟨true, RX.cat [RX.orL [RX.str "Sponsored", RX.str "Ad"], RX.star RX.sp,
                 RX.opt (RX.orL [RE.lit '·', RE.lit '•']), RX.starL RX.anyA,
                 RX.str "<a", RX.star (RX.nchs ">"), RX.str "href=\"", RX.g 1 (RX.plus (RX.nchs "\"")),
                 RX.str "\"", RX.star (RX.nchs ">"), RE.lit '>', RX.g 2 (RX.starL RX.anyA), RX.str "</a>",
                 RX.starL RX.anyA,
                 RX.opt (RX.cat [RX.str "<div", RX.star (RX.nchs ">"), RE.lit '>',
                                 RX.g 3 (RX.starL RX.anyA), RX.str "</div>"])]⟩

/-- Deduplicating merge of one parsed ad section into the ads list. -/
def adsMerge (st : List AdResult × List String) (sectionAds : List AdResult) :
    List AdResult × List String :=
  sectionAds.foldl (fun st ad =>
    if st.2.contains ad.url then st
    else (st.1 ++ [{ ad with position := st.1.length + 1 }], st.2 ++ [ad.url])) st

/-- `extractAds` of the SERP tracker. -/
def extractAds (html : String) : List AdResult :=
  let st0 : List AdResult × List String := ([], [])
  let st1 :=
    match jmatch topAdsPattern html with
    | some tm => adsMerge st0 (parseAdSection (tm.grpD 1) true)
    | none => st0
  let st2 :=
    match jmatch bottomAdsPattern html with
    | some bm => adsMerge st1 (parseAdSection (bm.grpD 1) false)
    | none => st1
  let st3 :=
    if st2.1.length = 0 then
      (jexecAll sponsoredPattern html).foldl (fun st m =>
        let url0 := m.grpD 1
        let url :=
          if startsWithJS url0 "/aclk" ∨ containsSubstr url0 "googleadservices" then
            match jmatch aclkRe url0 with
            | some rm => decodeURIComponentJS (rm.grpD 1)
            | none => url0
          else url0
        if st.2.contains url ∨ ¬ isRealExternalUrl url then st
        else
          (st.1 ++ [{ position := st.1.length + 1,
                      title := decodeHtmlEntities (stripTags (m.grpD 2)), url := url,
                      displayUrl := extractDisplayUrl url,
                      description := (match m.grp 3 with
                                      | some d => if d = "" then "" else decodeHtmlEntities (stripTags d)
                                      | none => ""),
                      isTop := true }], st.2 ++ [url])) st2
    else st2
  st3.1.filter (fun ad => isRealExternalUrl ad.url)

/-! ### People Also Ask -/

/-- The primary `data-q` PAA pattern (flags `gi`). -/
def paaPattern : JsRegex :=
  ⟨true, RX.cat [RX.str "data-q=\"", RX.g 1 (RX.plus (RX.nchs "\"")), RX.str "\"", RX.starL RX.anyA,
                 RX.opt (RX.cat [RX.str "<div", RX.star (RX.nchs ">"), RX.str "class=\"",
                                 RX.star (RX.nchs "\""), RX.orL [RX.str "wDYxhc", RX.str "LGOjhe"],
                                 RX.star (RX.nchs "\""), RX.str "\"", RX.star (RX.nchs ">"), RE.lit '>',
                                 RX.g 2 (RX.starL RX.anyA), RX.str "</div>"]),
                 RX.starL RX.anyA,
                 RX.opt (RX.cat [RX.str "<a", RX.star (RX.nchs ">"), RX.str "href=\"",
                                 RX.g 3 (RX.plus (RX.nchs "\"")), RX.str "\""])]⟩

/-- The `aria-expanded` fallback PAA pattern (flags `gi`). -/
def paaAriaPattern : JsRegex :=
  ⟨true, RX.cat [RX.str "aria-expanded=\"", RX.star (RX.nchs "\""), RX.str "\"",
                 RX.star (RX.nchs ">"), RE.lit '>', RX.starL RX.anyA,
                 RX.str "<span", RX.star (RX.nchs ">"), RE.lit '>',
                 RX.g 1 (RX.plus (RX.nchs "<")), RX.str "</span>"]⟩

/-- `/\?$|^(?:what|how|why|when|where|which|who|is|are|can|do|does|will|should)/i`. -/
def questionLikeRe : JsRegex :=
  ⟨true, RE.alt (RX.cat [RE.lit '?', RE.eol])
                (RX.cat [RE.bol, RX.orL [RX.str "what", RX.str "how", RX.str "why", RX.str "when",
                                         RX.str "where", RX.str "which", RX.str "who", RX.str "is",
                                         RX.str "are", RX.str "can", RX.str "do", RX.str "does",
                                         RX.str "will", RX.str "should"]])⟩

/-- The `jsname` fallback PAA pattern (flags `gi`). -/
def paaJsnamePattern : JsRegex :=
  ⟨true, RX.cat [RX.str "<div", RX.star (RX.nchs ">"), RX.str "jsname=\"", RX.star (RX.nchs "\""),
                 RX.str "\"", RX.star (RX.nchs ">"), RX.str "class=\"", RX.star (RX.nchs "\""),
                 RX.orL [RX.str "related-question", RX.str "CBv0Pd"], RX.star (RX.nchs "\""),
                 RX.str "\"", RX.star (RX.nchs ">"), RE.lit '>', RX.starL RX.anyA,
                 RX.str "<span", RX.star (RX.nchs ">"), RE.lit '>',
                 RX.g 1 (RX.rep 15 200 (RX.nchs "<")), RX.str "</span>"]⟩

/-- `extractPeopleAlsoAsk` of the SERP tracker. -/
def extractPeopleAlsoAsk (html : String) : List PeopleAlsoAsk :=
  let st0 : List PeopleAlsoAsk × List String := ([], [])
  let st1 := (jexecAll paaPattern html).foldl (fun st m =>
    let question := decodeHtmlEntities (m.grpD 1)
    if st.2.contains (toLowerJS question) then st
    else
      let snippet :=
        match m.grp 2 with
        | some s => if s = "" then none else some (trimJS (decodeHtmlEntities (stripTags s)))
        | none => none
      let url0 :=
        match m.grp 3 with
        | some u => if u = "" then none else some u
        | none => none
      let url := match url0 with
                 | some u => if containsSubstr u "google.com" then none else some u
                 | none => none
      (st.1 ++ [{ question := question, snippet := snippet, url := url }],
       st.2 ++ [toLowerJS question])) st0
  let st2 :=
    if st1.1.length = 0 then
      (jexecAll paaAriaPattern html).foldl (fun st m =>
        let text := decodeHtmlEntities (trimJS (m.grpD 1))
        if 15 < text.data.length ∧ text.data.length < 200 ∧ ¬ st.2.contains (toLowerJS text) then
          if jtest questionLikeRe text then
            (st.1 ++ [{ question := text, snippet := none, url := none }], st.2 ++ [toLowerJS text])
          else st
        else st) st1
    else st1
  let st3 :=
    if st2.1.length = 0 then
      (jexecAll paaJsnamePattern html).foldl (fun st m =>
        let text := decodeHtmlEntities (trimJS (m.grpD 1))
        if ¬ st.2.contains (toLowerJS text) then
          (st.1 ++ [{ question := text, snippet := none, url := none }], st.2 ++ [toLowerJS text])
        else st) st2
    else st2
  st3.1

/-! ### Featured snippet, AI overview, map pack, knowledge panel,
related searches, total results -/

/-- The `fsPatterns` of `extractFeaturedSnippet` (flag `i`). -/
def fsPatterns : List JsRegex :=
  [⟨true, RX.cat [RX.str "<div", RX.star (RX.nchs ">"), RX.str "class=\"", RX.star (RX.nchs "\""),
                  RX.orL [RX.str "IZ6rdc", RX.str "xpdopen", RX.str "kno-rdesc", RX.str "LGOjhe", RX.str "ayqGOc"],
                  RX.star (RX.nchs "\""), RX.str "\"", RX.star (RX.nchs ">"), RE.lit '>',
                  RX.g 1 (RX.starL RX.anyA), RX.str "</div>", RX.star RX.sp, RX.str "<div"]⟩,
   ⟨true, RX.cat [RX.str "<div", RX.star (RX.nchs ">"), RX.str "class=\"", RX.star (RX.nchs "\""),
                  RX.orL [RX.str "mod", RX.str "wDYxhc"], RX.star (RX.nchs "\""), RX.str "\"",
                  RX.star (RX.nchs ">"), RX.str "data-md=\"", RX.star (RX.nchs "\""), RX.str "\"",
                  RX.star (RX.nchs ">"), RE.lit '>', RX.g 1 (RX.starL RX.anyA), RX.str "</div>"]⟩,
   ⟨true, RX.cat [RX.str "<div", RX.star (RX.nchs ">"), RX.str "data-tts=\"answers\"",
                  RX.star (RX.nchs ">"), RE.lit '>', RX.g 1 (RX.starL RX.anyA), RX.str "</div>"]⟩]

/-- `/<a[^>]*href="(https?:\/\/(?!google\.com)[^"]+)"/i` (snippet URL
probe). -/
def fsUrlRe : JsRegex :=
  ⟨true, RX.cat [RX.str "<a", RX.star (RX.nchs ">"), RX.str "href=\"",
                 RX.g 1 (RX.cat [RX.str "http", RX.opt (RE.lit 's'), RX.str "://",
                                 RE.look false (RX.str "google.com"), RX.plus (RX.nchs "\"")]),
                 RX.str "\""]⟩

/-- `/<h[23][^>]*>([^<]+)<\/h[23]>/i`. -/
def fsTitleRe1 : JsRegex :=
  ⟨true, RX.cat [RX.str "<h", RX.anyOf [.ch '2', .ch '3'], RX.star (RX.nchs ">"), RE.lit '>',
                 RX.g 1 (RX.plus (RX.nchs "<")), RX.str "</h", RX.anyOf [.ch '2', .ch '3'], RE.lit '>']⟩

/-- `/<a[^>]*>([^<]+)<\/a>/i`. -/
def fsTitleRe2 : JsRegex :=
  ⟨true, RX.cat [RX.str "<a", RX.star (RX.nchs ">"), RE.lit '>', RX.g 1 (RX.plus (RX.nchs "<")), RX.str "</a>"]⟩

/-- `/<[uo]l/i`. -/
def listTagRe : JsRegex := ⟨true, RX.cat [RE.lit '<', RX.anyOf [.ch 'u', .ch 'o'], RE.lit 'l']⟩

/-- `/<table/i`. -/
def tableTagRe : JsRegex := ⟨true, RX.str "<table"⟩

/-- Cascade of `extractFeaturedSnippet` over `fsPatterns`. -/
def fsLoop (html : String) : List JsRegex → Option FeaturedSnippet
  | [] => none
  | p :: rest =>
      match jmatch p html with
      | none => fsLoop html rest
      | some m =>
          let content := m.grpD 1
          let text := trimJS (decodeHtmlEntities (stripTags content))
          if text.data.length < 20 then fsLoop html rest
          else
            let url := match jmatch fsUrlRe content with
                       | some um => um.grpD 1
                       | none => ""
            let title :=
              match jmatch fsTitleRe1 content with
              | some tm => decodeHtmlEntities (tm.grpD 1)
              | none =>
                  match jmatch fsTitleRe2 content with
                  | some tm => decodeHtmlEntities (tm.grpD 1)
                  | none => ""
            let ty := if jtest listTagRe content then "list"
                      else if jtest tableTagRe content then "table"
                      else "paragraph"
            some { text := takeJS 500 text, url := url, title := title, type := ty }

/-- `extractFeaturedSnippet` of the SERP tracker. -/
def extractFeaturedSnippet (html : String) : Option FeaturedSnippet :=
  fsLoop html fsPatterns

/-- The `aiPatterns` of `extractAiOverview` (flag `i`). -/
def aiPatterns : List JsRegex :=
  [⟨true, RX.cat [RX.str "<div", RX.star (RX.nchs ">"), RX.str "class=\"", RX.star (RX.nchs "\""),
                  RX.orL [RX.str "wSMpvd", RX.str "SoJBgd", RX.str "YsSBbe", RX.str "KuSmQb", RX.str "JMWMJ"],
                  RX.star (RX.nchs "\""), RX.str "\"", RX.star (RX.nchs ">"), RE.lit '>',
                  RX.g 1 (RX.starL RX.anyA), RX.str "</div>", RX.star RX.sp, RX.str "</div>",
                  RX.star RX.sp, RX.str "</div>"]⟩,
   ⟨true, RX.cat [RX.str "<div", RX.star (RX.nchs ">"), RX.str "data-attrid=\"", RX.star (RX.nchs "\""),
                  RX.str "ai", RX.star (RX.nchs "\""), RX.str "\"", RX.star (RX.nchs ">"), RE.lit '>',
                  RX.g 1 (RX.starL RX.anyA), RX.str "</div>"]⟩,
   ⟨true, RX.cat [RX.str "<div", RX.star (RX.nchs ">"), RX.str "class=\"", RX.star (RX.nchs "\""),
                  RX.str "mod", RX.star (RX.nchs "\""), RX.str "\"", RX.star (RX.nchs ">"), RE.lit '>',
                  RX.starL RX.anyA, RX.orL [RX.str "AI Overview", RX.str "AI-generated"],
                  RX.g 1 (RX.starL RX.anyA), RX.str "</div>", RX.star RX.sp, RX.str "</div>"]⟩]

/-- `/<a[^>]*href="(https?:\/\/(?!google\.com)[^"]+)"[^>]*>([^<]*)<\/a>/gi`
(AI-overview source links). -/
def aiSourceRe : JsRegex :=
  ⟨true, RX.cat [RX.str "<a", RX.star (RX.nchs ">"), RX.str "href=\"",
                 RX.g 1 (RX.cat [RX.str "http", RX.opt (RE.lit 's'), RX.str "://",
                                 RE.look false (RX.str "google.com"), RX.plus (RX.nchs "\"")]),
                 RX.str "\"", RX.star (RX.nchs ">"), RE.lit '>', RX.g 2 (RX.star (RX.nchs "<")), RX.str "</a>"]⟩

/-- Cascade of `extractAiOverview` over `aiPatterns`. -/
def aiLoop (html : String) : List JsRegex → Option AiOverview
  | [] => none
  | p :: rest =>
      match jmatch p html with
      | none => aiLoop html rest
      | some m =>
          let content := m.grpD 1
          let text := trimJS (decodeHtmlEntities (stripTags content))
          if text.data.length < 30 then aiLoop html rest
          else
            let sources := (jexecAll aiSourceRe content).foldl (fun acc sm =>
              let sourceTitle := trimJS (stripTags (sm.grpD 2))
              if sourceTitle ≠ "" then
                acc ++ [({ title := decodeHtmlEntities sourceTitle, url := sm.grpD 1 } : AiSource)]
              else acc) []
            some { text := takeJS 1000 text, sources := sources }

/-- `extractAiOverview` of the SERP tracker. -/
def extractAiOverview (html : String) : Option AiOverview :=
  aiLoop html aiPatterns

/-- The two card patterns of `extractMapPack` (flags `gi`). -/
def mapPatterns : List JsRegex :=
  [⟨true, RX.cat [RX.str "<div", RX.star (RX.nchs ">"), RX.str "class=\"", RX.star (RX.nchs "\""),
                  RX.orL [RX.str "VkpGBb", RX.str "rllt__link", RX.str "cXedhc", RX.str "X7jIDe"],
                  RX.star (RX.nchs "\""), RX.str "\"", RX.star (RX.nchs ">"), RE.lit '>',
                  RX.g 1 (RX.starL RX.anyA), RX.str "</div>", RX.star RX.sp, RX.str "</div>"]⟩,
   ⟨true, RX.cat [RX.str "<div", RX.star (RX.nchs ">"), RX.str "data-cid=\"", RX.star (RX.nchs "\""),
                  RX.str "\"", RX.star (RX.nchs ">"), RE.lit '>',
                  RX.g 1 (RX.starL RX.anyA), RX.str "</div>", RX.star RX.sp, RX.str "</div>"]⟩]

/-- The name probes of one map-pack card (flag `i`). -/
def mapNamePatterns : List JsRegex :=
  [⟨true, RX.cat [RX.str "<span", RX.star (RX.nchs ">"), RX.str "class=\"", RX.star (RX.nchs "\""),
                  RX.orL [RX.str "OSrXXb", RX.str "dbg0pd", RX.str "SPZz6b"], RX.star (RX.nchs "\""),
                  RX.str "\"", RX.star (RX.nchs ">"), RE.lit '>', RX.g 1 (RX.plus (RX.nchs "<")),
                  RX.str "</span>"]⟩,
   ⟨true, RX.cat [RX.str "<div", RX.star (RX.nchs ">"), RX.str "role=\"heading\"", RX.star (RX.nchs ">"),
                  RE.lit '>', RX.g 1 (RX.plus (RX.nchs "<")), RX.str "</div>"]⟩,
   ⟨true, RX.cat [RX.str "aria-label=\"", RX.g 1 (RX.rep 3 60 (RX.nchs "\"")), RX.str "\""]⟩]

/-- First matching name probe of a card. -/
def mapNameLoop (cardHtml : String) : List JsRegex → String
  | [] => ""
  | p :: rest =>
      match jmatch p cardHtml with
      | some m => decodeHtmlEntities (trimJS (m.grpD 1))
      | none => mapNameLoop cardHtml rest

/-- `/(\d\.\d)\s*(?:\(|stars?)/i` (map-pack rating probe). -/
def mapRatingRe : JsRegex :=
  ⟨true, RX.cat [RX.g 1 dDotD, RX.star RX.sp, RX.orL [RE.lit '(', RX.cat [RX.str "star", RX.opt (RE.lit 's')]]]⟩

/-- `/·\s*([A-Za-z\s&]+?)(?:\s*·|\s*<|$)/` (map-pack category probe,
no flags). -/
def mapCatRe : JsRegex :=
  ⟨false, RX.cat [RE.lit '·', RX.star RX.sp, RX.g 1 (RX.plusL azSpAmp),
                  RX.orL [RX.cat [RX.star RX.sp, RE.lit '·'], RX.cat [RX.star RX.sp, RE.lit '<'], RE.eol]]⟩

/-- `/(\d+\s+[^<,]+(?:St|Ave|Rd|Blvd|Dr)[^<]*)/i` (map-pack address
probe). -/
def mapAddrRe : JsRegex :=
  ⟨true, RX.g 1 (RX.cat [RX.plus RX.d, RX.plus RX.sp, RX.plus (RX.nchs "<,"),
                         RX.orL [RX.str "St", RX.str "Ave", RX.str "Rd", RX.str "Blvd", RX.str "Dr"],
                         RX.star (RX.nchs "<")])⟩

/-- `/(\+?1?[-.\s]?\(?\d{3}\)?[-.\s]?\d{3}[-.\s]?\d{4})/` (map-pack
phone probe). -/
def mapPhoneRe : JsRegex :=
  ⟨false, RX.g 1 (RX.cat [RX.opt (RE.lit '+'), RX.opt (RE.lit '1'), RX.opt (RX.anyOf dashDotSp),
                          RX.opt (RE.lit '('), RX.rep 3 3 RX.d, RX.opt (RE.lit ')'),
                          RX.opt (RX.anyOf dashDotSp), RX.rep 3 3 RX.d, RX.opt (RX.anyOf dashDotSp),
                          RX.rep 4 4 RX.d])⟩

/-- One card of `extractMapPack`. -/
def mapPackStep (st : List MapPackResult × List String) (m : MRes) :
    List MapPackResult × List String :=
  let cardHtml := m.grpD 1
  let name := mapNameLoop cardHtml mapNamePatterns
  if name = "" ∨ name.data.length < 2 ∨ st.2.contains (toLowerJS name) then st
  else
    let rating :=
      match jmatch mapRatingRe cardHtml with
      | some rm =>
          (match parseFloatJS (rm.grpD 1) with
           | some parsed => if 1 ≤ parsed ∧ parsed ≤ 5 then some parsed else none
           | none => none)
      | none => none
    let reviewCount :=
      match jmatch ervtRe cardHtml with
      | some rm => parseIntJS (removeAllChar ',' (rm.grpD 1))
      | none => none
    let category := (jmatch mapCatRe cardHtml).map (fun cm => trimJS (cm.grpD 1))
    let address := (jmatch mapAddrRe cardHtml).map (fun am => decodeHtmlEntities (trimJS (am.grpD 1)))
    let phone := (jmatch mapPhoneRe cardHtml).map (fun pm => trimJS (pm.grpD 1))
    (st.1 ++ [{ name := name, address := address, rating := rating, reviewCount := reviewCount,
                category := category, phone := phone }], st.2 ++ [toLowerJS name])

/-- `extractMapPack` of the SERP tracker (second card pattern tried only
when the first yields nothing). -/
def extractMapPack (html : String) : List MapPackResult :=
  let st1 := (jexecAll (mapPatterns.getD 0 ⟨false, RE.eps⟩) html).foldl mapPackStep ([], [])
  if 0 < st1.1.length then st1.1
  else ((jexecAll (mapPatterns.getD 1 ⟨false, RE.eps⟩) html).foldl mapPackStep st1).1

/-- The `kpPatterns` of `extractKnowledgePanel` (flag `i`). -/
def kpPatterns : List JsRegex :=
  [⟨true, RX.cat [RX.str "<div", RX.star (RX.nchs ">"), RX.str "class=\"", RX.star (RX.nchs "\""),
                  RX.orL [RX.str "kp-wholepage", RX.str "knowledge-panel", RX.str "kno-result", RX.str "osrp-blk"],
                  RX.star (RX.nchs "\""), RX.str "\"", RX.star (RX.nchs ">"), RE.lit '>',
                  RX.g 1 (RX.starL RX.anyA), RX.str "</div>", RX.star RX.sp, RX.str "</div>",
                  RX.star RX.sp, RX.str "</div>"]⟩,
   ⟨true, RX.cat [RX.str "<div", RX.star (RX.nchs ">"), RX.str "data-attrid=\"title\"",
                  RX.star (RX.nchs ">"), RE.lit '>', RX.g 1 (RX.starL RX.anyA), RX.str "</div>",
                  RX.starL RX.anyA,
                  RX.opt (RX.cat [RX.str "<div", RX.star (RX.nchs ">"), RX.str "data-attrid=\"subtitle\"",
                                  RX.star (RX.nchs ">"), RE.lit '>', RX.g 2 (RX.starL RX.anyA), RX.str "</div>"]),
                  RX.starL RX.anyA,
                  RX.opt (RX.cat [RX.str "<div", RX.star (RX.nchs ">"), RX.str "data-attrid=\"description\"",
                                  RX.star (RX.nchs ">"), RE.lit '>', RX.g 3 (RX.starL RX.anyA), RX.str "</div>"])]⟩]

/-- `/data-attrid="title"[^>]*>([^<]+)</i`. -/
def kpTitleRe1 : JsRegex :=
  ⟨true, RX.cat [RX.str "data-attrid=\"title\"", RX.star (RX.nchs ">"), RE.lit '>',
                 RX.g 1 (RX.plus (RX.nchs "<")), RE.lit '<']⟩

/-- `/<h2[^>]*class="[^"]*(?:qrShPb|kno-ecr-pt)[^"]*"[^>]*>([^<]+)/i`. -/
def kpTitleRe2 : JsRegex :=
  ⟨true, RX.cat [RX.str "<h2", RX.star (RX.nchs ">"), RX.str "class=\"", RX.star (RX.nchs "\""),
                 RX.orL [RX.str "qrShPb", RX.str "kno-ecr-pt"], RX.star (RX.nchs "\""), RX.str "\"",
                 RX.star (RX.nchs ">"), RE.lit '>', RX.g 1 (RX.plus (RX.nchs "<"))]⟩

/-- `/data-attrid="subtitle"[^>]*>([^<]+)</i`. -/
def kpTypeRe1 : JsRegex :=
  ⟨true, RX.cat [RX.str "data-attrid=\"subtitle\"", RX.star (RX.nchs ">"), RE.lit '>',
                 RX.g 1 (RX.plus (RX.nchs "<")), RE.lit '<']⟩

/-- `/<div[^>]*class="[^"]*(?:wwUB2c|YhemCb)[^"]*"[^>]*>([^<]+)/i`. -/
def kpTypeRe2 : JsRegex :=
  ⟨true, RX.cat [RX.str "<div", RX.star (RX.nchs ">"), RX.str "class=\"", RX.star (RX.nchs "\""),
                 RX.orL [RX.str "wwUB2c", RX.str "YhemCb"], RX.star (RX.nchs "\""), RX.str "\"",
                 RX.star (RX.nchs ">"), RE.lit '>', RX.g 1 (RX.plus (RX.nchs "<"))]⟩

/-- `/data-attrid="description"[^>]*>[\s\S]*?<span[^>]*>([^<]+)/i`. -/
def kpDescRe1 : JsRegex :=
  ⟨true, RX.cat [RX.str "data-attrid=\"description\"", RX.star (RX.nchs ">"), RE.lit '>',
                 RX.starL RX.anyA, RX.str "<span", RX.star (RX.nchs ">"), RE.lit '>',
                 RX.g 1 (RX.plus (RX.nchs "<"))]⟩

/-- `/<div[^>]*class="[^"]*(?:kno-rdesc|LGOjhe)[^"]*"[^>]*>[\s\S]*?<span[^>]*>([^<]+)/i`. -/
def kpDescRe2 : JsRegex :=
  ⟨true, RX.cat [RX.str "<div", RX.star (RX.nchs ">"), RX.str "class=\"", RX.star (RX.nchs "\""),
                 RX.orL [RX.str "kno-rdesc", RX.str "LGOjhe"], RX.star (RX.nchs "\""), RX.str "\"",
                 RX.star (RX.nchs ">"), RE.lit '>', RX.starL RX.anyA, RX.str "<span",
                 RX.star (RX.nchs ">"), RE.lit '>', RX.g 1 (RX.plus (RX.nchs "<"))]⟩

/-- `/<a[^>]*href="(https?:\/\/(?!google\.com)[^"]+)"[^>]*class="[^"]*(?:ruhjFe|ab_button)[^"]*"/i`. -/
def kpUrlRe : JsRegex :=
  ⟨true, RX.cat [RX.str "<a", RX.star (RX.nchs ">"), RX.str "href=\"",
                 RX.g 1 (RX.cat [RX.str "http", RX.opt (RE.lit 's'), RX.str "://",
                                 RE.look false (RX.str "google.com"), RX.plus (RX.nchs "\"")]),
                 RX.str "\"", RX.star (RX.nchs ">"), RX.str "class=\"", RX.star (RX.nchs "\""),
                 RX.orL [RX.str "ruhjFe", RX.str "ab_button"], RX.star (RX.nchs "\""), RX.str "\""]⟩

/-- `/data-attrid="(?:kc:\/[^"]*?\/)?([^"]+)"[^>]*>[\s\S]*?<span[^>]*>([^<]+)<\/span>/gi`. -/
def kpAttrRe : JsRegex :=
  ⟨true, RX.cat [RX.str "data-attrid=\"",
                 RX.opt (RX.cat [RX.str "kc:/", RX.starL (RX.nchs "\""), RE.lit '/']),
                 RX.g 1 (RX.plus (RX.nchs "\"")), RX.str "\"", RX.star (RX.nchs ">"), RE.lit '>',
                 RX.starL RX.anyA, RX.str "<span", RX.star (RX.nchs ">"), RE.lit '>',
                 RX.g 2 (RX.plus (RX.nchs "<")), RX.str "</span>"]⟩

/-- JS `key.replace(/_/g, ' ')`. -/
def underscoreToSpace (s : String) : String :=
  String.mk (s.data.map (fun c => if c = '_' then ' ' else c))

/-- Cascade of `extractKnowledgePanel` over `kpPatterns` (`continue`
moves to the next container pattern). -/
def kpLoop (html : String) : List JsRegex → Option KnowledgePanel
  | [] => none
  | p :: rest =>
      match jmatch p html with
      | none => kpLoop html rest
      | some m =>
          let content := m.m0
          let titleM :=
            match jmatch kpTitleRe1 content with
            | some tm => some tm
            | none => jmatch kpTitleRe2 content
          match titleM with
          | none => kpLoop html rest
          | some tm =>
              let title := decodeHtmlEntities (trimJS (tm.grpD 1))
              if title.data.length < 2 then kpLoop html rest
              else
                let ty :=
                  match (match jmatch kpTypeRe1 content with
                         | some x => some x
                         | none => jmatch kpTypeRe2 content) with
                  | some x => some (decodeHtmlEntities (trimJS (x.grpD 1)))
                  | none => none
                let description :=
                  match (match jmatch kpDescRe1 content with
                         | some x => some x
                         | none => jmatch kpDescRe2 content) with
                  | some x => some (decodeHtmlEntities (trimJS (x.grpD 1)))
                  | none => none
                let url := (jmatch kpUrlRe content).map (fun um => um.grpD 1)
                let attributes := (jexecAll kpAttrRe content).foldl (fun attrs am =>
                  let key := trimJS (underscoreToSpace (am.grpD 1))
                  let value := decodeHtmlEntities (trimJS (am.grpD 2))
                  if key ≠ "" ∧ value ≠ "" ∧ key ≠ "title" ∧ key ≠ "subtitle" ∧ key ≠ "description" then
                    assocSet attrs key value
                  else attrs) []
                some { title := title, type := ty, description := description, url := url,
                       attributes := attributes }

/-- `extractKnowledgePanel` of the SERP tracker. -/
def extractKnowledgePanel (html : String) : Option KnowledgePanel :=
  kpLoop html kpPatterns

/-- The `relatedPatterns` of `extractRelatedSearches` (flags `gi`). -/
def relatedPatterns : List JsRegex :=
  [⟨true, RX.cat [RX.str "<a", RX.star (RX.nchs ">"), RX.str "class=\"", RX.star (RX.nchs "\""),
                  RX.orL [RX.str "k8XOCe", RX.str "s75CSd", RX.str "BVG0Nb"], RX.star (RX.nchs "\""),
                  RX.str "\"", RX.star (RX.nchs ">"), RE.lit '>', RX.starL RX.anyA,
                  RX.str "<div", RX.star (RX.nchs ">"), RE.lit '>', RX.g 1 (RX.plus (RX.nchs "<")),
                  RX.str "</div>"]⟩,
   ⟨true, RX.cat [RX.str "<p", RX.star (RX.nchs ">"), RX.str "class=\"", RX.star (RX.nchs "\""),
                  RX.orL [RX.str "s6JM6d", RX.str "r2fjmd"], RX.star (RX.nchs "\""), RX.str "\"",
                  RX.star (RX.nchs ">"), RE.lit '>', RX.starL RX.anyA, RX.str "<span",
                  RX.star (RX.nchs ">"), RE.lit '>', RX.g 1 (RX.plus (RX.nchs "<")), RX.str "</span>"]⟩,
   ⟨true, RX.cat [RX.str "<a", RX.star (RX.nchs ">"), RX.str "href=\"/search?q=", RX.star (RX.nchs "\""),
                  RX.str "\"", RX.star (RX.nchs ">"), RX.str "class=\"", RX.star (RX.nchs "\""),
                  RX.str "\"", RX.star (RX.nchs ">"), RE.lit '>', RX.g 1 (RX.plus (RX.nchs "<")),
                  RX.str "</a>"]⟩]

/-- One related-searches pattern loop. -/
def relStep (st : List String × List String) (m : MRes) : List String × List String :=
  let search := decodeHtmlEntities (trimJS (m.grpD 1))
  if 2 < search.data.length ∧ search.data.length < 100 ∧ ¬ st.2.contains (toLowerJS search) then
    (st.1 ++ [search], st.2 ++ [toLowerJS search])
  else st

/-- Try pattern lists until one yields searches. -/
def relLoop (html : String) (st : List String × List String) : List JsRegex → List String
  | [] => st.1
  | p :: rest =>
      let st' := (jexecAll p html).foldl relStep st
      if 0 < st'.1.length then st'.1 else relLoop html st' rest

/-- `extractRelatedSearches` of the SERP tracker. -/
def extractRelatedSearches (html : String) : List String :=
  relLoop html ([], []) relatedPatterns

/-- The three patterns of `extractTotalResults`. -/
def totalResultsPatterns : List JsRegex :=
  [⟨true, RX.cat [RX.str "About", RX.plus RX.sp, RX.g 1 (RX.plus (RX.anyOf [.sd, .ch ','])),
                  RX.plus RX.sp, RX.str "results"]⟩,
   ⟨true, RX.cat [RX.opt (RX.cat [RX.str "About", RX.plus RX.sp]),
                  RX.g 1 (RX.plus (RX.anyOf [.sd, .ch ','])), RX.plus RX.sp, RX.str "results"]⟩,
   ⟨true, RX.cat [RX.str "\"resultStats\"", RX.star (RX.nchs ">"), RE.lit '>', RX.str "About",
                  RX.plus RX.sp, RX.g 1 (RX.plus (RX.anyOf [.sd, .ch ',']))]⟩]

/-- First-match cascade of `extractTotalResults`. -/
def totalResultsLoop (html : String) : List JsRegex → Option String
  | [] => none
  | p :: rest =>
      match jmatch p html with
      | some m => some (m.grpD 1)
      | none => totalResultsLoop html rest

/-- `extractTotalResults` of the SERP tracker. -/
def extractTotalResults (html : String) : Option String :=
  totalResultsLoop html totalResultsPatterns

/-! ### The `scrapeMobileSERP` document pipeline -/

/-- The challenge / anti-bot marker substrings recognised by
`scrapeMobileSERP`, in source order. -/
def hasChallengeMarker (html : String) : Bool :=
  containsSubstr html "captcha" ∨ containsSubstr html "unusual traffic" ∨
  containsSubstr html "detected unusual" ∨ containsSubstr html "knitsail" ∨
  containsSubstr html "/httpservice/retry/enablejs"

/-- The pure document-processing core of `scrapeMobileSERP`: everything
after the fetch.  The two `throw new Error(...)` sites become
`Except.error` with the thrown messages; the success path assembles the
`SerpResponse` from the feature extractors. -/
def processSerpHtml (query country language : String) (location : Option String)
    (html : String) : Except String SerpResponse :=
  if containsSubstr html "captcha" ∨ containsSubstr html "unusual traffic" ∨
     containsSubstr html "detected unusual" then
    .error "Google CAPTCHA detected. Mobile proxy may be flagged — try a different proxy region."
  else if containsSubstr html "knitsail" ∨ containsSubstr html "/httpservice/retry/enablejs" then
    .error "Google served a security challenge. The proxy IP may be flagged — try rotating to a new IP."
  else
    .ok { query := query, country := country, language := language,
          location := jsStrOrNull location,
          totalResults := extractTotalResults html,
          organic := extractOrganicResults html,
          ads := extractAds html,
          peopleAlsoAsk := extractPeopleAlsoAsk html,
          featuredSnippet := extractFeaturedSnippet html,
          aiOverview := extractAiOverview html,
          mapPack := extractMapPack html,
          knowledgePanel := extractKnowledgePanel html,
          relatedSearches := extractRelatedSearches html }

/-! ### Invariant machinery -/

/-- Fold invariance: a property preserved by every step holds of the
final accumulator. -/
theorem foldl_inv {α σ : Type _} (P : σ → Prop) (f : σ → α → σ)
    (hf : ∀ s x, P s → P (f s x)) : ∀ (l : List α) (s : σ), P s → P (l.foldl f s)
  | [], _, h => h
  | x :: xs, s, h => foldl_inv P f hf xs (f s x) (hf s x h)

/-- Whatever `resolveGoogleUrl` returns has passed `isRealExternalUrl`. -/
theorem resolveGoogleUrl_real {u v : String} (h : resolveGoogleUrl u = some v) :
    isRealExternalUrl v = true := by
  unfold resolveGoogleUrl at h
  split_ifs at h with h1 h2
  · cases hm : jmatch urlQRe u with
    | some m =>
        rw [hm] at h
        simp only [] at h
        split_ifs at h with h3
        · cases h; exact h3
    | none => rw [hm] at h; cases h
  · cases h; exact h2

/-- The invariant of `extractOrganicResults`: every emitted record's URL
passed the external-URL classifier and was recorded in `seenUrls`, and
the emitted URLs are pairwise distinct. -/
def OrgInv (st : OrgSt) : Prop :=
  (∀ r ∈ st.results, isRealExternalUrl r.url = true ∧ r.url ∈ st.seen) ∧
  (st.results.map (fun r => r.url)).Pairwise (· ≠ ·)

/-- `addResult` preserves the invariant. -/
theorem addResult_inv (st : OrgSt) (u t sn : String) (bh : Option String)
    (h : OrgInv st) : OrgInv (addResult st u t sn bh) := by
  unfold addResult
  cases hr : resolveGoogleUrl u with
  | none => exact h
  | some resolved =>
      simp only []
      split_ifs with h1 h2 h3
      · exact h
      · exact h
      · exact h
      · obtain ⟨hall, hpw⟩ := h
        have hnotmem : resolved ∉ st.seen := by
          intro hmem
          exact h1 (List.elem_eq_true_of_mem hmem)
        constructor
        · intro r hrmem
          rcases List.mem_append.mp hrmem with hold | hnew
          · obtain ⟨hreal, hseen⟩ := hall r hold
            exact ⟨hreal, List.mem_append.mpr (Or.inl hseen)⟩
          · rw [List.mem_singleton] at hnew
            subst hnew
            exact ⟨resolveGoogleUrl_real hr, List.mem_append.mpr (Or.inr (List.mem_singleton.mpr rfl))⟩
        · rw [List.map_append]
          apply List.pairwise_append.mpr
          refine ⟨hpw, List.pairwise_singleton _ _, ?_⟩
          intro a ha b hb
          simp only [List.map_cons, List.map_nil, List.mem_singleton] at hb
          subst hb
          rcases List.mem_map.mp ha with ⟨r, hrmem, rfl⟩
          intro heq
          exact hnotmem (heq ▸ (hall r hrmem).2)

/-- Strategy-1 steps preserve the invariant. -/
theorem orgStep1_inv (st : OrgSt) (m : MRes) (h : OrgInv st) : OrgInv (orgStep1 st m) := by
  unfold orgStep1
  cases parseOrganicBlock (m.grpD 1) with
  | some p => exact addResult_inv _ _ _ _ _ h
  | none => exact h

/-- Strategy-2 steps preserve the invariant. -/
theorem orgStep2_inv (st : OrgSt) (m : MRes) (h : OrgInv st) : OrgInv (orgStep2 st m) :=
  addResult_inv _ _ _ _ _ h

/-- Strategy-3 steps preserve the invariant. -/
theorem orgStep3_inv (st : OrgSt) (m : MRes) (h : OrgInv st) : OrgInv (orgStep3 st m) := by
  unfold orgStep3
  cases jmatch gLinkRe (m.grpD 1) with
  | none => exact h
  | some lm => exact addResult_inv _ _ _ _ _ h

/-- Strategy-4 steps preserve the invariant. -/
theorem orgStep4_inv (html : String) (st : OrgSt) (m : MRes) (h : OrgInv st) :
    OrgInv (orgStep4 html st m) := by
  unfold orgStep4
  dsimp only
  exact addResult_inv _ _ _ _ _ h

/-- Strategy-5 steps preserve the invariant. -/
theorem orgStep5_inv (st : OrgSt) (m : MRes) (h : OrgInv st) : OrgInv (orgStep5 st m) := by
  unfold orgStep5
  dsimp only
  split_ifs
  · exact h
  · exact h
  · exact addResult_inv _ _ _ _ _ h

/-- The final organic-extraction state satisfies the invariant. -/
theorem orgStage5_inv (html : String) : OrgInv (orgStage5 html) := by
  have h0 : OrgInv ⟨[], []⟩ := by
    refine ⟨?_, ?_⟩
    · intro r hr; cases hr
    · exact List.Pairwise.nil
  have h1 : OrgInv (orgStage1 html) :=
    foldl_inv OrgInv orgStep1 orgStep1_inv _ _ h0
  have h2 : OrgInv (orgStage2 html) := by
    unfold orgStage2
    split_ifs
    · exact foldl_inv OrgInv orgStep2 orgStep2_inv _ _ h1
    · exact h1
  have h3 : OrgInv (orgStage3 html) := by
    unfold orgStage3
    split_ifs
    · exact foldl_inv OrgInv orgStep3 orgStep3_inv _ _ h2
    · exact h2
  have h4 : OrgInv (orgStage4 html) := by
    unfold orgStage4
    split_ifs
    · exact foldl_inv OrgInv (orgStep4 html) (orgStep4_inv html) _ _ h3
    · exact h3
  unfold orgStage5
  split_ifs
  · exact foldl_inv OrgInv orgStep5 orgStep5_inv _ _ h4
  · exact h4

/-- A filtered list satisfies its own filter. -/
theorem all_filter_self {α : Type _} (l : List α) (p : α → Bool) :
    (l.filter p).all p = true := by
  rw [List.all_eq_true]
  intro a ha
  exact (List.mem_filter.mp ha).2

/-! ### Strategy-chain lemmas for the maps scraper -/

/-- One merge never grows past the target (or past what was already
there). -/
theorem mergeBiz_len_le (limit : Nat) (e : BusinessData → BusinessData) (st : BizSt)
    (cs : List BusinessData) :
    (mergeBiz limit e st cs).businesses.length ≤ max st.businesses.length limit := by
  unfold mergeBiz
  refine foldl_inv (fun s => s.businesses.length ≤ max st.businesses.length limit) _ ?_ cs st
    (le_max_left _ _)
  intro s b _
  dsimp only
  split_ifs with h1 h2
  · assumption
  · assumption
  · simp only [List.length_append, List.length_singleton]
    exact le_trans (Nat.succ_le_of_lt (Nat.lt_of_not_le h1)) (le_max_right _ _)

/-- Once the target is met, a merge adds nothing. -/
theorem mergeBiz_noop (limit : Nat) (e : BusinessData → BusinessData) (st : BizSt)
    (cs : List BusinessData) (h : limit ≤ st.businesses.length) :
    mergeBiz limit e st cs = st := by
  unfold mergeBiz
  induction cs with
  | nil => rfl
  | cons c cs ih =>
      rw [List.foldl_cons, if_pos h]
      exact ih

/-- Strategy 1 respects the target. -/
theorem mapsStage1_len (localHtml : Option String) (limit : Nat) :
    (mapsStage1 localHtml limit).businesses.length ≤ limit := by
  unfold mapsStage1
  cases localHtml with
  | none => simp
  | some h =>
      have := mergeBiz_len_le limit id ⟨[], []⟩ (extractFromGoogleLocalSearch h)
      simpa using this

/-- Strategies 1–2 respect the target. -/
theorem mapsStage2_len (localHtml mapsHtml : Option String) (limit : Nat) :
    (mapsStage2 localHtml mapsHtml limit).businesses.length ≤ limit := by
  unfold mapsStage2
  split_ifs with hlt
  · cases mapsHtml with
    | none => exact mapsStage1_len localHtml limit
    | some h =>
        have := mergeBiz_len_le limit (fun b => enrichBusinessData b h)
          (mapsStage1 localHtml limit) (extractBusinessesFromHtml h)
        rwa [Nat.max_eq_right (le_of_lt hlt)] at this
  · exact mapsStage1_len localHtml limit

/-- The whole chain respects the target. -/
theorem mapsStage3_len (localHtml mapsHtml searchHtml : Option String) (query : String)
    (limit : Nat) :
    (mapsStage3 localHtml mapsHtml searchHtml query limit).businesses.length ≤ limit := by
  unfold mapsStage3
  split_ifs with hlt
  · cases searchHtml with
    | none => exact mapsStage2_len localHtml mapsHtml limit
    | some h =>
        have := mergeBiz_len_le limit id (mapsStage2 localHtml mapsHtml limit)
          (extractFromGoogleSearch h query)
        rwa [Nat.max_eq_right (le_of_lt hlt)] at this
  · exact mapsStage2_len localHtml mapsHtml limit

/-- When strategy 1 already met the target, strategies 2 and 3 are
skipped entirely. -/
theorem mapsStage3_of_full (localHtml mapsHtml searchHtml : Option String) (query : String)
    (limit : Nat) (h : limit ≤ (mapsStage1 localHtml limit).businesses.length) :
    mapsStage3 localHtml mapsHtml searchHtml query limit = mapsStage1 localHtml limit := by
  have h2 : mapsStage2 localHtml mapsHtml limit = mapsStage1 localHtml limit := by
    unfold mapsStage2
    rw [if_neg (Nat.not_lt.mpr h)]
  unfold mapsStage3
  rw [h2, if_neg (Nat.not_lt.mpr h)]

/-! ### Concrete subject documents for the claim theorems -/

/-- A maps-search page that contains the challenge marker `captcha`
together with a well-formed embedded business entry. -/
def c1MapsDoc : String := "captcha [null,null,1.0,2.0]\"Joes Pizza\""

/-- An embedded-array entry whose coordinate pair is `(95.0, 40.0)`
(latitude out of range). -/
def c2CoordDoc : String := "[null,null,95.0,40.0]\"Joes Pizza\""

/-- Two embedded-array anchors that differ only in surrounding
whitespace inside the quoted name. -/
def c3DupDoc : String :=
  "[null,null,1.0,2.0]\" Joes Pizza\"[null,null,3.0,4.0]\"Joes Pizza\""

/-- The spec scenario names: two anchors that differ only in case. -/
def c3JoesName : String := "Joe" ++ String.mk [aposC] ++ "s Pizza"

/-- A document containing the anchors `Joe's Pizza` and `JOE'S PIZZA`. -/
def c3JoesDoc : String :=
  "[null,null,1.0,2.0]\"" ++ c3JoesName ++ "\"[null,null,3.0,4.0]\"JOE" ++
    String.mk [aposC] ++ "S PIZZA\""

/-- The spec-scenario organic-result document of claim C4. -/
def c4Doc : String :=
  "<div class=\"g\"><a href=\"/url?q=https://example.com/page\">Example Title</a><span class=\"st\">An example snippet.</span></div>"

/-- A result block whose sitelink href is a relative URL. -/
def c5SitelinkDoc : String := "<a class=\"fl\" href=\"/relative\">More pages</a>"

/-- A JSON-LD script whose `priceRange` is the free-text `Moderate`. -/
def c8JsonLdDoc : String :=
  "<script type=\"application/ld+json\">\x7b\"@type\":\"LocalBusiness\",\"name\":\"Cafe X\",\"priceRange\":\"Moderate\"\x7d</script>"

/-- A Local-Search page with exactly one business card. -/
def c9LocalDoc : String := "data-cid=\"123\"><div class=\"dbg0pd\">Alpha Plumbing</div>"

/-- A maps page with a further business that must not be reached once
the target is met. -/
def c9MapsDoc : String := "[null,null,1.0,2.0]\"Beta Cafe\""

/-- Modelled from the spec: a well-formed `priceLevel` is "a contiguous
run of 1–4 currency symbols". -/
def specPriceLevelRun (s : String) : Bool :=
  0 < s.data.length ∧ s.data.length ≤ 4 ∧ s.data.all (fun c => c = '$')

/-! ### Claim theorems -/

/-- C1 (counterexample): the Google Maps pipeline performs no
challenge-marker check at all — on a document containing the recognised
marker `captcha` it happily returns one extracted record and no error
condition, contradicting the claim that every pipeline reports
ChallengeDetected with zero records on such documents.  (Its result
type has no error channel; the record below is extracted from the
marked document.) -/
theorem c1_maps_ignores_challenge_marker :
    hasChallengeMarker c1MapsDoc = true ∧
    (scrapeGoogleMapsCore none (some c1MapsDoc) none "plumbers" "austin" 20 0).businesses.map
      (fun b => b.name) = ["Joes Pizza"] := by decide

/-- C1 (amended): in the mobile SERP pipeline, `scrapeMobileSERP`
throws (reports the challenge error) before any extraction whenever the
fetched document contains one of the recognised challenge markers, so
zero records are returned there; the maps pipeline performs no such
check. -/
theorem c1_serp_challenge_throws (query country language : String) (location : Option String)
    (html : String) (h : hasChallengeMarker html = true) :
    ∃ e, processSerpHtml query country language location html = Except.error e := by
  unfold processSerpHtml
  split_ifs with h1 h2
  · exact ⟨_, rfl⟩
  · exact ⟨_, rfl⟩
  · simp only [hasChallengeMarker, decide_eq_true_eq] at h
    exact absurd h (by tauto)

/-- C1 (witness): the amended theorem applied at the literal document
`captcha`. -/
theorem c1_serp_challenge_throws_witness :
    ∃ e, processSerpHtml "pizza" "us" "en" none "captcha" = Except.error e :=
  c1_serp_challenge_throws "pizza" "us" "en" none "captcha" (by decide)

/-- C2 (code bug): strategy 1 of `extractBusinessesFromHtml` copies a
matched coordinate pair into the record without any range check — on
the embedded pair `(95.0, 40.0)` the emitted record carries latitude 95
even though 95 is outside `[-90, 90]`, contradicting both the claim and
the range validation the same file applies in its other two coordinate
extractors. -/
theorem c2_unvalidated_strategy_coordinates :
    (extractBusinessesFromHtml c2CoordDoc).map (fun b => (b.name, b.coordinates)) =
      [("Joes Pizza", some ⟨some 95, some 40⟩)] ∧
    ¬ ((95 : Q) ≤ 90) := by decide

/-- C3 (counterexample): the dedup key is the case-folded anchor text
before trimming, but the emitted name is trimmed — two anchors
differing only in surrounding whitespace produce two records whose
case-folded names coincide, so the emitted dedup key is not unique in
the output list. -/
theorem c3_trim_breaks_dedup_key :
    (extractBusinessesFromHtml c3DupDoc).map (fun b => b.name) = ["Joes Pizza", "Joes Pizza"] ∧
    ¬ ((extractBusinessesFromHtml c3DupDoc).map (fun b => toLowerJS b.name)).Pairwise (· ≠ ·) := by
  decide

/-- C3 (amended): for search-feature records the dedup key is the
resolved URL stored in the record itself, and it is pairwise distinct
in every output list; for business records dedup is enforced on the
case-folded pre-trim anchor (so the spec scenario holds: of
`Joe's Pizza` and `JOE'S PIZZA` only the first survives), but emitted
names can repeat when anchors differ only in surrounding whitespace. -/
theorem c3_dedup_amended (html : String) :
    ((extractOrganicResults html).map (fun r => r.url)).Pairwise (· ≠ ·) ∧
    (extractBusinessesFromHtml c3JoesDoc).map (fun b => b.name) = [c3JoesName] := by
  constructor
  · exact (orgStage5_inv html).2
  · decide

/-- C4 (confirmed): on the spec-scenario document, organic-result
extraction yields exactly one record with position 1, the unwrapped
URL, the title, and the snippet. -/
theorem c4_gblock_scenario :
    extractOrganicResults c4Doc =
      [{ position := 1, title := "Example Title", url := "https://example.com/page",
         displayUrl := "example.com/page", snippet := "An example snippet.",
         sitelinks := [], date := none, cached := false }] := by decide

/-- C5 (counterexample): `extractSitelinks` only filters hrefs for the
substring `google.com` — a relative URL flows into the sitelink record
untouched, although it fails the external-URL classifier, contradicting
the claim that every URL surfaced in any output record is a real
external URL. -/
theorem c5_sitelink_not_external :
    extractSitelinks c5SitelinkDoc = [{ title := "More pages", url := "/relative" }] ∧
    isRealExternalUrl "/relative" = false := by decide

/-- C5 (amended): organic-result URLs and ad URLs always pass
`isRealExternalUrl` (the organic path resolves through
`resolveGoogleUrl`, the ads path ends in an explicit filter); sitelink
and People-Also-Ask URLs are only screened for the substring
`google.com` and may be relative or otherwise non-external. -/
theorem c5_urls_amended (html : String) :
    (extractOrganicResults html).all (fun r => isRealExternalUrl r.url) = true ∧
    (extractAds html).all (fun ad => isRealExternalUrl ad.url) = true := by
  constructor
  · rw [List.all_eq_true]
    intro r hr
    exact ((orgStage5_inv html).1 r hr).1
  · unfold extractAds
    exact all_filter_self _ _

/-- C6 (confirmed): an empty document is not an error in either
pipeline: the SERP core succeeds with an all-empty response (the
challenge checks cannot fire on an empty string), and the maps chain
returns an empty record list with no next-page token. -/
theorem c6_empty_document_ok (query country language : String) (location : Option String) :
    processSerpHtml query country language location "" =
      Except.ok { query := query, country := country, language := language,
                  location := jsStrOrNull location, totalResults := none,
                  organic := [], ads := [], peopleAlsoAsk := [], featuredSnippet := none,
                  aiOverview := none, mapPack := [], knowledgePanel := none,
                  relatedSearches := [] } ∧
    (scrapeGoogleMapsCore (some "") (some "") (some "") query "austin" 20 0).businesses = [] ∧
    (scrapeGoogleMapsCore (some "") (some "") (some "") query "austin" 20 0).nextPageToken =
      none :=
  ⟨rfl, rfl, rfl⟩

/-- C7 (confirmed): each rejection rule of `isValidBusinessName` named
by the claim forces a `false` verdict — length outside [2,80], a
leading quotation mark, more than 8 whitespace-separated words, any
denylist-pattern match, no alphabetic character, fully upper-case text
longer than 20 characters — and the concrete candidate `SPONSORED` is
rejected (it matches the case-insensitive denylist) even though it
passes the length and alphabetic checks. -/
theorem c7_validator_rejects (name : String) :
    ((name.data.length < 2 ∨ 80 < name.data.length) → isValidBusinessName name = false) ∧
    (jtest startQuoteRe name = true → isValidBusinessName name = false) ∧
    (8 < (jsplit wsSplitRe name).length → isValidBusinessName name = false) ∧
    (invalidPatterns.any (fun p => jtest p name) = true → isValidBusinessName name = false) ∧
    (jtest alphaRe name = false → isValidBusinessName name = false) ∧
    ((name = toUpperJS name ∧ 20 < name.data.length) → isValidBusinessName name = false) ∧
    (isValidBusinessName "SPONSORED" = false ∧ 2 ≤ "SPONSORED".data.length ∧
      "SPONSORED".data.length ≤ 80 ∧ jtest alphaRe "SPONSORED" = true) := by
  refine ⟨?_, ?_, ?_, ?_, ?_, ?_, by decide⟩
  · intro h
    unfold isValidBusinessName
    split_ifs with h1 h2 h3 h4 h5 h6 h7 h8 <;> try rfl
    exact absurd (Or.inr h) h1
  · intro h
    unfold isValidBusinessName
    split_ifs with h1 <;> try rfl
  · intro h
    unfold isValidBusinessName
    split_ifs with h1 h2 h3 h4 <;> try rfl
  · intro h
    unfold isValidBusinessName
    split_ifs with h1 h2 h3 h4 h5 <;> try rfl
  · intro h
    unfold isValidBusinessName
    split_ifs with h1 h2 h3 h4 h5 h6 h7 h8 <;> try rfl
    simp [h] at h7
  · intro h
    unfold isValidBusinessName
    split_ifs with h1 h2 h3 h4 h5 h6 h7 <;> try rfl

/-- C7 (witness): the rejection rules applied at concrete candidates —
a one-character name, a leading-quote name, a nine-word name, a
denylist phrase, a digits-only name, and a 25-character all-caps
banner. -/
theorem c7_validator_rejects_witness :
    isValidBusinessName "a" = false ∧ isValidBusinessName "\"Great\"" = false ∧
    isValidBusinessName "a b c d e f g h i" = false ∧
    isValidBusinessName "call us now today" = false ∧
    isValidBusinessName "1234" = false ∧
    isValidBusinessName "AAAAAAAAAAAAAAAAAAAAAAAAA" = false :=
  ⟨(c7_validator_rejects "a").1 (Or.inl (by decide)),
   (c7_validator_rejects "\"Great\"").2.1 (by decide),
   (c7_validator_rejects "a b c d e f g h i").2.2.1 (by decide),
   (c7_validator_rejects "call us now today").2.2.2.1 (by decide),
   (c7_validator_rejects "1234").2.2.2.2.1 (by decide),
   (c7_validator_rejects "AAAAAAAAAAAAAAAAAAAAAAAAA").2.2.2.2.2.1 ⟨by decide, by decide⟩⟩

/-- C8 (code bug): the JSON-LD extraction path copies the `priceRange`
string into `priceLevel` verbatim, with no shape check — on a document
whose `priceRange` is the free text `Moderate`, the emitted record
carries `priceLevel = some "Moderate"`, which is not a contiguous run
of 1–4 currency symbols (`specPriceLevelRun`, modelled from the spec
sentence), contradicting the claim; only `extractPriceLevel` enforces
the run shape. -/
theorem c8_jsonld_pricerange_verbatim :
    (extractBusinessesFromHtml c8JsonLdDoc).map (fun b => (b.name, b.priceLevel)) =
      [("Cafe X", some "Moderate")] ∧
    specPriceLevelRun "Moderate" = false := by decide

/-- C9 (confirmed): the maps strategy chain stops at the target — the
returned list never holds more than `limit` records, and once strategy
1 alone meets the target, strategies 2 and 3 change nothing. -/
theorem c9_chain_stops_at_target (localHtml mapsHtml searchHtml : Option String)
    (query location : String) (limit : Nat) (startIndex : Int) :
    (scrapeGoogleMapsCore localHtml mapsHtml searchHtml query location limit
        startIndex).businesses.length ≤ limit ∧
    (limit ≤ (mapsStage1 localHtml limit).businesses.length →
      mapsStage3 localHtml mapsHtml searchHtml query limit = mapsStage1 localHtml limit) := by
  constructor
  · show ((mapsStage3 localHtml mapsHtml searchHtml query limit).businesses.take
      limit).length ≤ limit
    rw [List.length_take]
    exact Nat.min_le_left _ _
  · intro h
    exact mapsStage3_of_full localHtml mapsHtml searchHtml query limit h

/-- C9 (witness): with `limit = 1`, strategy 1 already yields one
record from the Local-Search card, the chain state equals the stage-1
state (the maps document, which on its own yields a further record, is
never consulted), and the returned list holds at most one record. -/
theorem c9_chain_stops_witness :
    (scrapeGoogleMapsCore (some c9LocalDoc) (some c9MapsDoc) none "plumbers" "austin" 1
        0).businesses.length ≤ 1 ∧
    mapsStage3 (some c9LocalDoc) (some c9MapsDoc) none "plumbers" 1 =
      mapsStage1 (some c9LocalDoc) 1 :=
  ⟨(c9_chain_stops_at_target (some c9LocalDoc) (some c9MapsDoc) none "plumbers" "austin" 1 0).1,
   (c9_chain_stops_at_target (some c9LocalDoc) (some c9MapsDoc) none "plumbers" "austin" 1 0).2
     (by decide)⟩

/-- C10 (confirmed): `totalFound` always equals the length of the
returned `businesses` list (the deduplicated count, which never exceeds
`limit`), and `nextPageToken` is non-none exactly when that count
reached `limit`, in which case it is the decimal string of
`startIndex + limit`. -/
theorem c10_totals_and_token (localHtml mapsHtml searchHtml : Option String)
    (query location : String) (limit : Nat) (startIndex : Int) :
    (scrapeGoogleMapsCore localHtml mapsHtml searchHtml query location limit
        startIndex).totalFound =
      (scrapeGoogleMapsCore localHtml mapsHtml searchHtml query location limit
        startIndex).businesses.length ∧
    (scrapeGoogleMapsCore localHtml mapsHtml searchHtml query location limit
        startIndex).nextPageToken =
      (if (scrapeGoogleMapsCore localHtml mapsHtml searchHtml query location limit
            startIndex).businesses.length = limit then
        some (toString (startIndex + (limit : Int)))
      else none) := by
  have hn := mapsStage3_len localHtml mapsHtml searchHtml query limit
  simp only [scrapeGoogleMapsCore, List.length_take, min_eq_right hn]
  constructor
  · trivial
  · rcases Nat.lt_or_ge
      ((mapsStage3 localHtml mapsHtml searchHtml query limit).businesses.length) limit with
      hlt | hge
    · rw [if_neg (Nat.not_le.mpr hlt), if_neg (Nat.ne_of_lt hlt)]
    · rw [if_pos hge, if_pos (Nat.le_antisymm hn hge)]
